import Mathlib

/-!
# cmd/selectkms1: read the environment, build a DSN, run `SELECT 1`

A shallow embedding of `src/cmd/selectkms1/selectkms1.go`.

The program is sequential code around external collaborators (the process
environment, the `flag` package, the Snowflake driver behind `database/sql`).
The collaborators are the fields of `World`; every call the program makes to
one of them is recorded in a trace, so that "is never invoked" is a statement
about the trace.  `log.Fatalf` ends the run with exit status 1 and runs no
deferred call.
-/

namespace Selectkms1

/-! ## Go values used by the program -/

/-- The two sentinel errors a `*strconv.NumError` can wrap in base 10. -/
inductive NumErrKind where
  | ErrSyntax
  | ErrRange
deriving DecidableEq, Repr

/-- A non-nil Go `error`: either the `*strconv.NumError` built by `strconv`, or
an error of a collaborator, known by the text of its `Error()` method. -/
inductive GoError where
  | NumError (Func Num : String) (Err : NumErrKind)
  | errorString (text : String)
deriving DecidableEq, Repr

/-- Modelled from the spec: the driver's authenticator-kind tag (`sf.AuthType`), whose
declaration is not part of this program. `AuthTypeKMSJwt` is the tag for KMS-backed
JWT authentication; `AuthTypeSnowflake` is the driver's zero value. -/
inductive AuthType where
  | AuthTypeSnowflake
  | AuthTypeKMSJwt
deriving DecidableEq, Repr

/-- The fields of `sf.Config` that `getDSN` sets; every other field keeps its zero value. -/
structure Config where
  Account : String
  User : String
  Password : String
  Host : String
  Port : Int
  Protocol : String
  Authenticator : AuthType
  AWSKMSKeyARN : String
deriving DecidableEq, Repr

/-- A `*sql.DB` handle, as handed out by `sql.Open`. -/
structure DB where
  handle : Nat
deriving DecidableEq, Repr

/-- A `*sql.Rows` result stream: for each row that `rows.Next()` advances to, what
`rows.Scan(&v)` does there (an error, or the integer stored in `v`), and what
`rows.Err()` reports once `rows.Next()` has returned false. -/
structure Rows where
  pending : List (Except GoError Int)
  err : Option GoError

/-- An operand of a `Printf`-style call. -/
inductive Arg where
  | str (s : String)
  | int (n : Int)
  | err (e : Option GoError)
  | cfg (c : Option Config)
deriving DecidableEq

/-- The calls the program makes to the outside, in the order it makes them. -/
inductive Event where
  | flagParse
  | Getenv (key : String)
  | DSN (cfg : Config)
  | sqlOpen (driverName dataSourceName : String)
  | Query (query : String)
  | rowsNext
  | rowsScan
  | rowsErr
  | rowsClose
  | dbClose
  | Printf (format : String) (a : List Arg)
  | Fatalf (format : String) (a : List Arg)
deriving DecidableEq

/-- The external collaborators of one run of the program. -/
structure World where
  /-- The value of `strconv.IntSize` on the platform. -/
  intSize : Nat
  /-- Go's `int` has 32 or 64 bits. -/
  intSize_ok : intSize = 32 ∨ intSize = 64
  /-- The process environment: `none` for a key that is not set. -/
  environ : String → Option String
  /-- What `flag.Parsed()` reports when `main` starts. -/
  flagParsed : Bool
  /-- The effect of `flag.Parse()` on the command line: `none` when it returns,
  `some code` when the `flag` package ends the process with that status. -/
  flagParseExit : Option Nat
  /-- The driver's encoder `sf.DSN(cfg *sf.Config)`. It receives the record by pointer
  and may write to it: the record as the call leaves it, the string, and the error. -/
  DSN : Config → Config × String × Option GoError
  /-- The function `sql.Open`. -/
  sqlOpen : String → String → Except GoError DB
  /-- The method `(*sql.DB).Query` without arguments. -/
  Query : DB → String → Except GoError Rows
  /-- The function `strconv.Quote`, used in the text of a `*strconv.NumError`. -/
  Quote : String → String
  /-- The `%v` rendering of a non-nil `*sf.Config`. -/
  fmtConfig : Config → String

/-! ## Sequential code with a trace and process exit -/

/-- How a piece of code ends: it returns a value, or the process exits. -/
inductive Outcome (α : Type) where
  | ret (a : α)
  | exit (code : Nat)
deriving DecidableEq

/-- A piece of code, run: how it ended and the calls it made. -/
structure Go (α : Type) where
  out : Outcome α
  trace : List Event

/-- Returning a value makes no call. -/
def Go.pure {α : Type} (a : α) : Go α := ⟨.ret a, []⟩

/-- Sequencing: the second piece runs only if the first one returned. -/
def Go.bind {α β : Type} (p : Go α) (f : α → Go β) : Go β :=
  match p.out with
  | .ret a => ⟨(f a).out, p.trace ++ (f a).trace⟩
  | .exit code => ⟨.exit code, p.trace⟩

instance : Monad Go where
  pure := Go.pure
  bind := Go.bind

/-- One call to the outside that returns `a`. -/
def call {α : Type} (e : Event) (a : α) : Go α := ⟨.ret a, [e]⟩

/-- The exit status of the process when `main` ends this way. -/
def Go.exitStatus {α : Type} (p : Go α) : Nat :=
  match p.out with
  | .ret _ => 0
  | .exit code => code

/-! ## strconv.Atoi (Go standard library, base 10)

A Go string is a byte sequence; the functions below read it character by
character.  For the decisions taken here this is the same: a byte of a
multi-byte character is neither a sign nor a decimal digit, and the first
such byte is met where the first such character is. Only `len` counts bytes. -/

/-- The Go builtin `len` on a string: its number of bytes. -/
def len (s : String) : Nat := s.utf8ByteSize

/-- The largest `uint64`. -/
def maxUint64 : Nat := 2 ^ 64 - 1

/-- The digit loop of `strconv.ParseUint(s, 10, bitSize)`, from accumulator `n`:
the value and the error, `maxVal` with `ErrRange` on overflow. -/
def ParseUintLoop (maxVal : Nat) : List Char → Nat → Nat × Option NumErrKind
  | [], n => (n, none)
  | c :: cs, n =>
    if '0' ≤ c ∧ c ≤ '9' then
      let d := c.toNat - '0'.toNat
      if n ≥ maxUint64 / 10 + 1 then (maxVal, some .ErrRange)
      else
        let n10 := n * 10
        let n1 := (n10 + d) % 2 ^ 64
        if n1 < n10 ∨ n1 > maxVal then (maxVal, some .ErrRange)
        else ParseUintLoop maxVal cs n1
    else (0, some .ErrSyntax)

/-- The function `strconv.ParseUint(s, 10, bitSize)` for `0 < bitSize ≤ 64`. -/
def ParseUint (bitSize : Nat) (s : List Char) : Nat × Option NumErrKind :=
  if s = [] then (0, some .ErrSyntax)
  else ParseUintLoop (2 ^ bitSize - 1) s 0

/-- The function `strconv.ParseInt(s, 10, 0)` on a platform whose `int` has `intSize`
bits. The conversion `int64(un)` and the negation wrap only at `un = 2^63`, where
the wrapped result is `-2^63`, the value returned here. -/
def ParseInt (intSize : Nat) (s : List Char) : Int × Option NumErrKind :=
  match s with
  | [] => (0, some .ErrSyntax)
  | c :: cs =>
    let neg := c = '-'
    let s1 := if c = '+' ∨ c = '-' then cs else c :: cs
    let r := ParseUint intSize s1
    if r.2 = some .ErrSyntax then (0, some .ErrSyntax)
    else
      let un := r.1
      let cutoff := 2 ^ (intSize - 1)
      if ¬ neg ∧ un ≥ cutoff then (((cutoff - 1 : Nat) : Int), some .ErrRange)
      else if neg ∧ un > cutoff then (-(cutoff : Int), some .ErrRange)
      else (if neg then -(un : Int) else (un : Int), none)

/-- The digit loop of the fast path of `strconv.Atoi`: `none` on a byte that is not a digit. -/
def atoiFastLoop : List Char → Int → Option Int
  | [], n => some n
  | c :: cs, n =>
    if '0' ≤ c ∧ c ≤ '9' then atoiFastLoop cs (n * 10 + ((c.toNat - '0'.toNat : Nat) : Int))
    else none

/-- The fast path of `strconv.Atoi`, for a short non-empty string. -/
def atoiFast (s : String) : Int × Option GoError :=
  match s.data with
  | [] => (0, some (.NumError "Atoi" s .ErrSyntax))
  | c :: cs =>
    let signed := c = '-' ∨ c = '+'
    let s1 := if signed then cs else c :: cs
    if signed ∧ s1.length < 1 then (0, some (.NumError "Atoi" s .ErrSyntax))
    else
      match atoiFastLoop s1 0 with
      | none => (0, some (.NumError "Atoi" s .ErrSyntax))
      | some n => (if c = '-' then -n else n, none)

/-- The function `strconv.Atoi` on a platform whose `int` has `intSize` bits. -/
def Atoi (intSize : Nat) (s : String) : Int × Option GoError :=
  let sLen := len s
  if (intSize = 32 ∧ 0 < sLen ∧ sLen < 10) ∨ (intSize = 64 ∧ 0 < sLen ∧ sLen < 19) then
    atoiFast s
  else
    let r := ParseInt intSize s.data
    (r.1, r.2.map (fun kind => GoError.NumError "Atoi" s kind))

/-! ## fmt: the `%v` verb -/

/-- The text of a sentinel error of `strconv`. -/
def NumErrKind.text : NumErrKind → String
  | .ErrSyntax => "invalid syntax"
  | .ErrRange => "value out of range"

/-- The `Error()` method of a Go error. -/
def GoError.Error (w : World) : GoError → String
  | .NumError fn num kind => "strconv." ++ fn ++ ": parsing " ++ w.Quote num ++ ": " ++ kind.text
  | .errorString text => text

/-- The `%v` rendering of an operand. -/
def fmtV (w : World) : Arg → String
  | .str s => s
  | .int n => toString n
  | .err none => "<nil>"
  | .err (some e) => e.Error w
  | .cfg none => "<nil>"
  | .cfg (some c) => "&" ++ w.fmtConfig c

/-- The text `fmt.Sprintf` builds from a format whose only verb is `%v`, on the
characters of the format. Every call of the program passes one operand per verb. -/
def sprintfChars (w : World) : List Char → List Arg → List Char
  | [], _ => []
  | [c], _ => [c]
  | c :: d :: rest, as =>
    if c = '%' ∧ d = 'v' then
      match as with
      | [] => "%!v(MISSING)".data ++ sprintfChars w rest []
      | a :: as' => (fmtV w a).data ++ sprintfChars w rest as'
    else c :: sprintfChars w (d :: rest) as

/-- The function `fmt.Sprintf` for the formats of this program. -/
def Sprintf (w : World) (format : String) (as : List Arg) : String :=
  ⟨sprintfChars w format.data as⟩

/-- What a run has written to standard output. -/
def stdout (w : World) : List Event → String
  | [] => ""
  | .Printf format as :: rest => Sprintf w format as ++ stdout w rest
  | _ :: rest => stdout w rest

/-- The diagnostics of the fatal terminations in a trace (at most one: the run ends there),
without the header the `log` package puts in front. -/
def diagnostics (w : World) : List Event → List String
  | [] => []
  | .Fatalf format as :: rest => Sprintf w format as :: diagnostics w rest
  | _ :: rest => diagnostics w rest

/-! ## The program -/

/-- The value `os.Getenv` returns: the empty string for a key that is not set. -/
def World.getenv (w : World) (key : String) : String :=
  (w.environ key).getD ""

/-- The function `os.Getenv`. -/
def Getenv (w : World) (key : String) : Go String :=
  call (.Getenv key) (w.getenv key)

/-- The function `log.Fatalf`: write the diagnostic, then `os.Exit(1)`. -/
def Fatalf {α : Type} (format : String) (as : List Arg) : Go α :=
  ⟨.exit 1, [.Fatalf format as]⟩

/-- The function `fmt.Printf`, to standard output. -/
def Printf (format : String) (as : List Arg) : Go Unit :=
  call (.Printf format as) ()

/-- The function `flag.Parse`. -/
def flagParse (w : World) : Go Unit :=
  match w.flagParseExit with
  | none => call .flagParse ()
  | some code => ⟨.exit code, [.flagParse]⟩

/-- The closure `env` of `getDSN`. -/
def env (w : World) (k : String) (failOnMissing : Bool) : Go String := do
  let value ← Getenv w k
  if value ≠ "" then
    return value
  if failOnMissing then
    Fatalf "%v environment variable is not set." [.str k]
  return ""

/-- The function `getDSN`: the connection string, the configuration and the error. `cfg`
is a pointer to the record: the encoder is called on the record as built, and the record
returned is the same one, as the encoder has left it. -/
def getDSN (w : World) : Go (String × Option Config × Option GoError) := do
  let account ← env w "SNOWFLAKE_TEST_ACCOUNT" true
  let user ← env w "SNOWFLAKE_TEST_USER" true
  let password ← env w "SNOWFLAKE_TEST_PASSWORD" false
  let host ← env w "SNOWFLAKE_TEST_HOST" false
  let portStr ← env w "SNOWFLAKE_TEST_PORT" false
  let protocol ← env w "SNOWFLAKE_TEST_PROTOCOL" false
  let kmsarn ← env w "SNOWFLAKE_TEST_KMSARN" true
  let mut port : Int := 443
  if len portStr > 0 then
    match Atoi w.intSize portStr with
    | (_, some err) => return ("", none, some err)
    | (p, none) => port := p
  let cfg : Config :=
    { Account := account
      User := user
      Password := password
      Host := host
      Port := port
      Protocol := protocol
      Authenticator := .AuthTypeKMSJwt
      AWSKMSKeyARN := kmsarn }
  let (cfg, dsn, err) ← call (.DSN cfg) (w.DSN cfg)
  return (dsn, some cfg, err)

/-- The loop `for rows.Next() { ... }` of `main` over the rows still to come. -/
def rowLoop : List (Except GoError Int) → Go Unit
  | [] => call .rowsNext ()
  | r :: rest => do
    call .rowsNext ()
    match ← call .rowsScan r with
    | .error err => Fatalf "failed to get result. err: %v" [.err (some err)]
    | .ok v =>
      if v ≠ 1 then
        Fatalf "failed to get 1. got: %v" [.int v]
      rowLoop rest

/-- The function `main`. The deferred `rows.Close()` and `db.Close()` run, last one
first, when `main` returns, and do not run when the process exits in `log.Fatalf`. -/
def main (w : World) : Go Unit := do
  if ¬ w.flagParsed then
    flagParse w
  let (dsn, cfg, err) ← getDSN w
  if err ≠ none then
    Fatalf "failed to create DSN from Config: %v, err: %v" [.cfg cfg, .err err]
  match ← call (.sqlOpen "snowflake" dsn) (w.sqlOpen "snowflake" dsn) with
  | .error err => Fatalf "failed to connect. %v, err: %v" [.str dsn, .err (some err)]
  | .ok db =>
    let query := "SELECT 1"
    match ← call (.Query query) (w.Query db query) with
    | .error err => Fatalf "failed to run a query. %v, err: %v" [.str query, .err (some err)]
    | .ok rows =>
      rowLoop rows.pending
      if (← call .rowsErr rows.err) ≠ none then
        Printf "ERROR: %v\n" [.err (← call .rowsErr rows.err)]
        call .rowsClose ()
        call .dbClose ()
      else
        Printf "Congrats! You have successfully run %v with Snowflake DB!\n" [.str query]
        call .rowsClose ()
        call .dbClose ()

/-! ## Vocabulary of the specification -/

/-- The calls `getDSN` makes to `os.Getenv`, in order. -/
def envTrace : List Event :=
  [.Getenv "SNOWFLAKE_TEST_ACCOUNT", .Getenv "SNOWFLAKE_TEST_USER",
   .Getenv "SNOWFLAKE_TEST_PASSWORD", .Getenv "SNOWFLAKE_TEST_HOST",
   .Getenv "SNOWFLAKE_TEST_PORT", .Getenv "SNOWFLAKE_TEST_PROTOCOL",
   .Getenv "SNOWFLAKE_TEST_KMSARN"]

/-- The configuration record the specification describes for a port: the values of the
environment keys and the KMS-JWT authenticator tag. -/
def configOf (w : World) (port : Int) : Config :=
  { Account := w.getenv "SNOWFLAKE_TEST_ACCOUNT"
    User := w.getenv "SNOWFLAKE_TEST_USER"
    Password := w.getenv "SNOWFLAKE_TEST_PASSWORD"
    Host := w.getenv "SNOWFLAKE_TEST_HOST"
    Port := port
    Protocol := w.getenv "SNOWFLAKE_TEST_PROTOCOL"
    Authenticator := .AuthTypeKMSJwt
    AWSKMSKeyARN := w.getenv "SNOWFLAKE_TEST_KMSARN" }

/-- What `main` has done when `getDSN` is called: `flag.Parse()`, unless the flags were parsed. -/
def flagTrace (w : World) : List Event :=
  if w.flagParsed then [] else [.flagParse]

/-- The value of a run of decimal digits read after the accumulator `n`; `none` when a
character is not a decimal digit. -/
def digitsFrom : List Char → Nat → Option Nat
  | [], n => some n
  | c :: cs, n =>
    if '0' ≤ c ∧ c ≤ '9' then digitsFrom cs (n * 10 + (c.toNat - '0'.toNat)) else none

/-- The integer a base-10 integer string denotes: an optional sign `+` or `-`, then one or
more decimal digits; `none` for every other string. No bound on the value. -/
def decimalValue (s : String) : Option Int :=
  match s.data with
  | [] => none
  | c :: cs =>
    if c = '-' then
      if cs = [] then none else (digitsFrom cs 0).map fun (v : Nat) => -(v : Int)
    else if c = '+' then
      if cs = [] then none else (digitsFrom cs 0).map fun (v : Nat) => (v : Int)
    else (digitsFrom (c :: cs) 0).map fun (v : Nat) => (v : Int)

/-- The keys `getDSN` requires, in the order it reads them. -/
def requiredKeys : List String :=
  ["SNOWFLAKE_TEST_ACCOUNT", "SNOWFLAKE_TEST_USER", "SNOWFLAKE_TEST_KMSARN"]

/-- The seven keys `getDSN` reads. -/
def sevenKeys : List String :=
  ["SNOWFLAKE_TEST_ACCOUNT", "SNOWFLAKE_TEST_USER", "SNOWFLAKE_TEST_PASSWORD",
   "SNOWFLAKE_TEST_HOST", "SNOWFLAKE_TEST_PORT", "SNOWFLAKE_TEST_PROTOCOL",
   "SNOWFLAKE_TEST_KMSARN"]

/-- A key is missing when it is absent or set to the empty string. -/
def World.missing (w : World) (key : String) : Prop :=
  w.environ key = none ∨ w.environ key = some ""

instance (w : World) (key : String) : Decidable (w.missing key) :=
  inferInstanceAs (Decidable (w.environ key = none ∨ w.environ key = some ""))

/-- The first required key that is missing, in the order account, user, KMS ARN. -/
def firstMissing (w : World) : Option String :=
  requiredKeys.find? fun key => decide (w.missing key)

/-- The calls of a loop that advances to and decodes `n` rows. -/
def scanTrace : Nat → List Event
  | 0 => []
  | n + 1 => .rowsNext :: .rowsScan :: scanTrace n

/-- The call is one to the DSN encoder, to `sql.Open` or to `Query`. -/
def Event.isConnect : Event → Bool
  | .DSN _ => true
  | .sqlOpen _ _ => true
  | .Query _ => true
  | _ => false

/-- The call is one to `sql.Open` or to `Query`. -/
def Event.isOpenOrQuery : Event → Bool
  | .sqlOpen _ _ => true
  | .Query _ => true
  | _ => false

/-- The call is `rows.Next()` or `rows.Scan(&v)`. -/
def Event.isRowStep : Event → Bool
  | .rowsNext => true
  | .rowsScan => true
  | _ => false

/-- The call is one to `log.Fatalf`. -/
def Event.isFatalf : Event → Bool
  | .Fatalf _ _ => true
  | _ => false

/-- The text contains the part as a contiguous piece. -/
def includes (text part : String) : Prop :=
  part.data <:+: text.data

instance (text part : String) : Decidable (includes text part) :=
  inferInstanceAs (Decidable (part.data <:+: text.data))

/-- The line `main` prints on success. -/
def successLine : String :=
  "Congrats! You have successfully run SELECT 1 with Snowflake DB!\n"

/-- The call by which `main` prints the success line. -/
def successPrintf : Event :=
  .Printf "Congrats! You have successfully run %v with Snowflake DB!\n" [.str "SELECT 1"]

/-- The call is one to `fmt.Printf` or to `log.Fatalf`. -/
def Event.isOutput : Event → Bool
  | .Printf _ _ => true
  | .Fatalf _ _ => true
  | _ => false

/-- The command line is accepted: `flag.Parse()` is not called, or it returns. -/
def World.flagsAccepted (w : World) : Prop :=
  w.flagParsed = true ∨ w.flagParseExit = none

instance (w : World) : Decidable w.flagsAccepted :=
  inferInstanceAs (Decidable (w.flagParsed = true ∨ w.flagParseExit = none))

/-- The calls of `main` up to and including the query, when `getDSN` has returned `dsn`. -/
def setupTrace (w : World) (dsn : String) : List Event :=
  flagTrace w ++ (getDSN w).trace ++ [.sqlOpen "snowflake" dsn, .Query "SELECT 1"]

/-! ## Concrete runs -/

/-- A run with the three required keys set and nothing else, a connection, and a query that
returns the single row `1`. Its encoder does what the driver's does to the record: it fills
an empty host from the account, an empty protocol and a zero port, and it adds the account
to the string only when the host was given. -/
def wOk : World :=
  { intSize := 64
    intSize_ok := Or.inr rfl
    environ := fun key =>
      if key = "SNOWFLAKE_TEST_ACCOUNT" then some "acct"
      else if key = "SNOWFLAKE_TEST_USER" then some "usr"
      else if key = "SNOWFLAKE_TEST_KMSARN" then some "arn:aws:kms:us-east-1:123456789:key/mrk-1"
      else none
    flagParsed := false
    flagParseExit := none
    DSN := fun c =>
      ({ c with
          Host := if c.Host = "" then c.Account ++ ".snowflakecomputing.com" else c.Host
          Protocol := if c.Protocol = "" then "https" else c.Protocol
          Port := if c.Port = 0 then 443 else c.Port },
        c.User ++ "@" ++
          (if c.Host = "" then c.Account ++ ".snowflakecomputing.com"
           else c.Host ++ "?account=" ++ c.Account),
        none)
    sqlOpen := fun _ _ => .ok ⟨0⟩
    Query := fun _ _ => .ok ⟨[.ok 1], none⟩
    Quote := fun s => "\"" ++ s ++ "\""
    fmtConfig := fun c => "\x7b" ++ c.Account ++ " " ++ c.User ++ "\x7d" }

/-- The configuration record `getDSN` builds in the run `wOk`. -/
def cfgOk : Config :=
  { Account := "acct"
    User := "usr"
    Password := ""
    Host := ""
    Port := 443
    Protocol := ""
    Authenticator := .AuthTypeKMSJwt
    AWSKMSKeyARN := "arn:aws:kms:us-east-1:123456789:key/mrk-1" }

/-- The record of `cfgOk` as the encoder of `wOk` leaves it, which `getDSN` returns. -/
def cfgRet : Config :=
  { cfgOk with Host := "acct.snowflakecomputing.com", Protocol := "https" }

/-- The run `wOk` with the flags parsed beforehand, a query that fails, and one more
variable in the environment. -/
def wOther : World :=
  { wOk with
    environ := fun key => if key = "HOME" then some "/root" else wOk.environ key
    flagParsed := true
    Query := fun _ _ => .error (.errorString "network down") }

/-- The account is set, the user and the KMS ARN are not, and the port is not a number. -/
def wMissingUser : World :=
  { wOk with
    environ := fun key =>
      if key = "SNOWFLAKE_TEST_ACCOUNT" then some "acct"
      else if key = "SNOWFLAKE_TEST_USER" then some ""
      else if key = "SNOWFLAKE_TEST_PORT" then some "https"
      else none }

/-- The environment of `wOk` with `SNOWFLAKE_TEST_PORT` set to `port`. -/
def withPort (port : String) : World :=
  { wOk with
    environ := fun key =>
      if key = "SNOWFLAKE_TEST_PORT" then some port else wOk.environ key }

/-- The run `wOk` with another answer to the query. -/
def withQuery (answer : Except GoError Rows) : World :=
  { wOk with Query := fun _ _ => answer }

/-! ## Unfolding lemmas -/

theorem bind_eq {α β : Type} (p : Go α) (f : α → Go β) : (p >>= f) = Go.bind p f := rfl

theorem pure_eq {α : Type} (a : α) : (Pure.pure a : Go α) = Go.pure a := rfl

theorem env_eq (w : World) (k : String) (b : Bool) :
    env w k b =
      if w.getenv k ≠ "" then ⟨.ret (w.getenv k), [.Getenv k]⟩
      else if b then ⟨.exit 1, [.Getenv k, .Fatalf "%v environment variable is not set." [.str k]]⟩
      else ⟨.ret "", [.Getenv k]⟩ := by
  unfold env
  simp only [bind_eq, pure_eq, Go.bind, Go.pure, Getenv, call, Fatalf]
  by_cases h : w.getenv k = "" <;> cases b <;> simp [h]

theorem rowLoop_cons (r : Except GoError Int) (rest : List (Except GoError Int)) :
    rowLoop (r :: rest) =
      match r with
      | .error err => ⟨.exit 1, [.rowsNext, .rowsScan, .Fatalf "failed to get result. err: %v" [.err (some err)]]⟩
      | .ok v =>
        if v ≠ 1 then ⟨.exit 1, [.rowsNext, .rowsScan, .Fatalf "failed to get 1. got: %v" [.int v]]⟩
        else ⟨(rowLoop rest).out, .rowsNext :: .rowsScan :: (rowLoop rest).trace⟩ := by
  rw [rowLoop]
  simp only [bind_eq, pure_eq, Go.bind, Go.pure, call, Fatalf]
  cases r with
  | error e => simp
  | ok v => by_cases h : v = 1 <;> simp [h]


theorem len_pos_iff (s : String) : len s > 0 ↔ s ≠ "" := by
  cases s with
  | mk cs =>
    cases cs with
    | nil => simp [len]; rfl
    | cons c cs =>
      have := c.utf8Size_pos
      simp [len]
      constructor
      · intro _ h; exact absurd (congrArg String.data h) (by simp)
      · intro _; omega

theorem getDSN_required_ok (w : World)
    (ha : w.getenv "SNOWFLAKE_TEST_ACCOUNT" ≠ "") (hu : w.getenv "SNOWFLAKE_TEST_USER" ≠ "")
    (hk : w.getenv "SNOWFLAKE_TEST_KMSARN" ≠ "") :
    getDSN w =
      if w.getenv "SNOWFLAKE_TEST_PORT" ≠ "" then
        match Atoi w.intSize (w.getenv "SNOWFLAKE_TEST_PORT") with
        | (_, some err) => ⟨.ret ("", none, some err), envTrace⟩
        | (p, none) =>
          ⟨.ret ((w.DSN (configOf w p)).2.1, some (w.DSN (configOf w p)).1,
              (w.DSN (configOf w p)).2.2),
            envTrace ++ [.DSN (configOf w p)]⟩
      else
        ⟨.ret ((w.DSN (configOf w 443)).2.1, some (w.DSN (configOf w 443)).1,
            (w.DSN (configOf w 443)).2.2),
          envTrace ++ [.DSN (configOf w 443)]⟩ := by
  unfold getDSN
  simp only [env_eq, bind_eq, pure_eq, Go.bind, Go.pure, call, len_pos_iff]
  simp only [ha, hu, hk, ne_eq, not_false_eq_true, if_true, Bool.false_eq_true, if_false]
  by_cases hpw : w.getenv "SNOWFLAKE_TEST_PASSWORD" = "" <;>
  by_cases hh : w.getenv "SNOWFLAKE_TEST_HOST" = "" <;>
  by_cases hpr : w.getenv "SNOWFLAKE_TEST_PROTOCOL" = "" <;>
  by_cases hp : w.getenv "SNOWFLAKE_TEST_PORT" = "" <;>
  simp [hpw, hh, hpr, hp, envTrace, configOf] <;>
  (rcases hA : Atoi w.intSize (w.getenv "SNOWFLAKE_TEST_PORT") with ⟨p, _ | e⟩ <;> simp [hA, hpw, hh, hpr])

theorem main_eq (w : World) (hflag : w.flagParsed = true ∨ w.flagParseExit = none) :
    main w =
      match (getDSN w).out with
      | .exit code => ⟨.exit code, flagTrace w ++ (getDSN w).trace⟩
      | .ret (dsn, cfg, err) =>
        if err ≠ none then
          ⟨.exit 1, flagTrace w ++ (getDSN w).trace ++
            [.Fatalf "failed to create DSN from Config: %v, err: %v" [.cfg cfg, .err err]]⟩
        else
          match w.sqlOpen "snowflake" dsn with
          | .error e =>
            ⟨.exit 1, flagTrace w ++ (getDSN w).trace ++
              [.sqlOpen "snowflake" dsn,
               .Fatalf "failed to connect. %v, err: %v" [.str dsn, .err (some e)]]⟩
          | .ok db =>
            match w.Query db "SELECT 1" with
            | .error e =>
              ⟨.exit 1, flagTrace w ++ (getDSN w).trace ++
                [.sqlOpen "snowflake" dsn, .Query "SELECT 1",
                 .Fatalf "failed to run a query. %v, err: %v" [.str "SELECT 1", .err (some e)]]⟩
            | .ok rows =>
              match (rowLoop rows.pending).out with
              | .exit code =>
                ⟨.exit code, flagTrace w ++ (getDSN w).trace ++
                  [.sqlOpen "snowflake" dsn, .Query "SELECT 1"] ++ (rowLoop rows.pending).trace⟩
              | .ret _ =>
                if rows.err ≠ none then
                  ⟨.ret (), flagTrace w ++ (getDSN w).trace ++
                    [.sqlOpen "snowflake" dsn, .Query "SELECT 1"] ++ (rowLoop rows.pending).trace ++
                    [.rowsErr, .rowsErr, .Printf "ERROR: %v\n" [.err rows.err],
                     .rowsClose, .dbClose]⟩
                else
                  ⟨.ret (), flagTrace w ++ (getDSN w).trace ++
                    [.sqlOpen "snowflake" dsn, .Query "SELECT 1"] ++ (rowLoop rows.pending).trace ++
                    [.rowsErr,
                     .Printf "Congrats! You have successfully run %v with Snowflake DB!\n"
                       [.str "SELECT 1"],
                     .rowsClose, .dbClose]⟩ := by
  unfold main
  simp only [bind_eq, pure_eq, Go.bind, Go.pure, call, Fatalf, Printf, flagParse, flagTrace]
  have hf : w.flagParsed = false → w.flagParseExit = none := by
    intro h; simpa [h] using hflag
  rcases hg : getDSN w with ⟨⟨dsn, cfg, err⟩ | code, tr⟩
  · cases hso : w.sqlOpen "snowflake" dsn with
    | error e => cases hfp : w.flagParsed <;> cases err <;> simp [hfp, hf, hso]
    | ok db =>
      cases hq : w.Query db "SELECT 1" with
      | error e => cases hfp : w.flagParsed <;> cases err <;> simp [hfp, hf, hso, hq]
      | ok rows =>
        rcases hl : rowLoop rows.pending with ⟨_ | code, ltr⟩ <;>
        cases he : rows.err <;> cases hfp : w.flagParsed <;> cases err <;>
        simp [hfp, hf, hso, hq, hl, he]
  · cases hfp : w.flagParsed <;> simp [hfp, hf]

/-! ## strconv.Atoi against the decimal reading of a string -/

theorem digit_le_nine (c : Char) (h : '0' ≤ c ∧ c ≤ '9') : c.toNat - '0'.toNat ≤ 9 := by
  obtain ⟨h1, h2⟩ := h
  have h1n : '0'.toNat ≤ c.toNat := h1
  have h2n : c.toNat ≤ '9'.toNat := h2
  have e1 : '0'.toNat = 48 := rfl
  have e2 : '9'.toNat = 57 := rfl
  omega

theorem atoiFastLoop_eq (cs : List Char) (n : Nat) :
    atoiFastLoop cs (n : Int) = (digitsFrom cs n).map fun (v : Nat) => (v : Int) := by
  induction cs generalizing n with
  | nil => simp [atoiFastLoop, digitsFrom]
  | cons c cs ih =>
    by_cases h : '0' ≤ c ∧ c ≤ '9'
    · simp only [atoiFastLoop, digitsFrom, h, and_self, if_true]
      rw [← ih]
      push_cast
      rfl
    · simp [atoiFastLoop, digitsFrom, h]

theorem digitsFrom_ge (cs : List Char) (n v : Nat) (h : digitsFrom cs n = some v) : n ≤ v := by
  induction cs generalizing n with
  | nil => simp [digitsFrom] at h; omega
  | cons c cs ih =>
    by_cases hc : '0' ≤ c ∧ c ≤ '9'
    · simp only [digitsFrom, hc, and_self, if_true] at h
      have := ih _ h
      omega
    · simp [digitsFrom, hc] at h

theorem ParseUintLoop_of_digits (maxVal : Nat) (hmax : maxVal < 2 ^ 64) (cs : List Char) (n v : Nat)
    (h : digitsFrom cs n = some v) (hv : v ≤ maxVal) : ParseUintLoop maxVal cs n = (v, none) := by
  induction cs generalizing n with
  | nil => simp [digitsFrom] at h; simp [ParseUintLoop, h]
  | cons c cs ih =>
    by_cases hc : '0' ≤ c ∧ c ≤ '9'
    · simp only [digitsFrom, hc, and_self, if_true] at h
      have hge := digitsFrom_ge _ _ _ h
      have hd := digit_le_nine c hc
      have hmod : (n * 10 + (c.toNat - '0'.toNat)) % 2 ^ 64 = n * 10 + (c.toNat - '0'.toNat) :=
        Nat.mod_eq_of_lt (by omega)
      have h1 : ¬ (n ≥ maxUint64 / 10 + 1) := by
        simp only [maxUint64]; omega
      have h2 : ¬ (n * 10 + (c.toNat - '0'.toNat) < n * 10 ∨ n * 10 + (c.toNat - '0'.toNat) > maxVal) := by
        omega
      simp only [ParseUintLoop, hc, and_self, if_true, h1, if_false, hmod, h2]
      exact ih _ h
    · simp [digitsFrom, hc] at h

theorem digits_of_ParseUintLoop (maxVal : Nat) (cs : List Char) (n v : Nat)
    (h : ParseUintLoop maxVal cs n = (v, none)) : digitsFrom cs n = some v := by
  induction cs generalizing n with
  | nil => simp [ParseUintLoop] at h; simp [digitsFrom, h]
  | cons c cs ih =>
    by_cases hc : '0' ≤ c ∧ c ≤ '9'
    · simp only [ParseUintLoop, hc, and_self, if_true] at h
      by_cases h1 : n ≥ maxUint64 / 10 + 1
      · rw [if_pos h1] at h; simp at h
      · rw [if_neg h1] at h
        by_cases h2 : (n * 10 + (c.toNat - '0'.toNat)) % 2 ^ 64 < n * 10 ∨
            (n * 10 + (c.toNat - '0'.toNat)) % 2 ^ 64 > maxVal
        · rw [if_pos h2] at h; simp at h
        · rw [if_neg h2] at h
          have hd := digit_le_nine c hc
          have hmod : (n * 10 + (c.toNat - '0'.toNat)) % 2 ^ 64 = n * 10 + (c.toNat - '0'.toNat) := by
            simp only [maxUint64] at h1
            omega
          rw [hmod] at h
          simp only [digitsFrom, hc, and_self, if_true]
          exact ih _ h
    · simp [ParseUintLoop, hc] at h

theorem ParseUintLoop_range (maxVal : Nat) (cs : List Char) (n v : Nat)
    (h : ParseUintLoop maxVal cs n = (v, some .ErrRange)) : v = maxVal := by
  induction cs generalizing n with
  | nil => simp [ParseUintLoop] at h
  | cons c cs ih =>
    by_cases hc : '0' ≤ c ∧ c ≤ '9'
    · simp only [ParseUintLoop, hc, and_self, if_true] at h
      by_cases h1 : n ≥ maxUint64 / 10 + 1
      · rw [if_pos h1] at h; simp at h; omega
      · rw [if_neg h1] at h
        by_cases h2 : (n * 10 + (c.toNat - '0'.toNat)) % 2 ^ 64 < n * 10 ∨
            (n * 10 + (c.toNat - '0'.toNat)) % 2 ^ 64 > maxVal
        · rw [if_pos h2] at h; simp at h; omega
        · rw [if_neg h2] at h
          exact ih _ h
    · simp [ParseUintLoop, hc] at h

theorem decimalValue_cons (s : String) (c : Char) (cs : List Char) (hs : s.data = c :: cs) :
    decimalValue s =
      if (if c = '+' ∨ c = '-' then cs else c :: cs) = [] then none
      else (digitsFrom (if c = '+' ∨ c = '-' then cs else c :: cs) 0).map
        fun (v : Nat) => if c = '-' then -(v : Int) else (v : Int) := by
  unfold decimalValue
  rw [hs]
  by_cases hm : c = '-'
  · subst hm; simp
  · by_cases hp : c = '+'
    · subst hp; simp
    · simp [hm, hp]

theorem atoiFast_eq (s : String) :
    atoiFast s =
      match decimalValue s with
      | some n => (n, none)
      | none => (0, some (.NumError "Atoi" s .ErrSyntax)) := by
  unfold atoiFast
  rcases hs : s.data with _ | ⟨c, cs⟩
  · simp [decimalValue, hs]
  · rw [decimalValue_cons s c cs hs]
    have h0 := fun l => atoiFastLoop_eq l 0
    simp only [Nat.cast_zero] at h0
    by_cases hm : c = '-'
    · subst hm
      rcases cs with _ | ⟨d, ds⟩
      · simp
      · rcases hd : digitsFrom (d :: ds) 0 with _ | v <;> simp [h0, hd]
    · by_cases hp : c = '+'
      · subst hp
        rcases cs with _ | ⟨d, ds⟩
        · simp
        · rcases hd : digitsFrom (d :: ds) 0 with _ | v <;> simp [h0, hd]
      · rcases hd : digitsFrom (c :: cs) 0 with _ | v <;> simp [h0, hd, hm, hp]

theorem ParseInt_of_decimal (sz : Nat) (hsz : sz = 32 ∨ sz = 64) (s : String) (n : Int)
    (h : decimalValue s = some n) (hlo : -(2 ^ (sz - 1) : Int) ≤ n) (hhi : n < 2 ^ (sz - 1)) :
    ParseInt sz s.data = (n, none) := by
  rcases hs : s.data with _ | ⟨c, cs⟩
  · simp [decimalValue, hs] at h
  · rw [decimalValue_cons s c cs hs] at h
    unfold ParseInt
    simp only []
    generalize (if c = '+' ∨ c = '-' then cs else c :: cs) = s1 at h ⊢
    by_cases he : s1 = []
    · simp [he] at h
    · rw [if_neg he] at h
      rcases hd : digitsFrom s1 0 with _ | v
      · simp [hd] at h
      · rw [hd] at h
        have h' : (if c = '-' then -(v : Int) else (v : Int)) = n := by
          simpa only [Option.map_some', Option.some.injEq] using h
        have hP : ∀ (_ : v ≤ 2 ^ sz - 1), ParseUint sz s1 = (v, none) := by
          intro hv
          unfold ParseUint
          rw [if_neg he]
          refine ParseUintLoop_of_digits _ ?_ _ _ _ hd hv
          rcases hsz with rfl | rfl <;> norm_num
        by_cases hm : c = '-'
        · rw [if_pos hm] at h'
          have h1 : ¬ (v > 2 ^ (sz - 1)) ∧ v ≤ 2 ^ sz - 1 := by
            rcases hsz with rfl | rfl <;> norm_num at hlo hhi ⊢ <;> omega
          rw [hP h1.2]
          simp [hm, h1.1, h']
        · rw [if_neg hm] at h'
          have h1 : ¬ (v ≥ 2 ^ (sz - 1)) ∧ v ≤ 2 ^ sz - 1 := by
            rcases hsz with rfl | rfl <;> norm_num at hlo hhi ⊢ <;> omega
          rw [hP h1.2]
          simp [hm, h1.1, h']

theorem ParseInt_error_of_not_decimal (sz : Nat) (hsz : sz = 32 ∨ sz = 64) (s : String)
    (h : decimalValue s = none) : ∃ kind, (ParseInt sz s.data).2 = some kind := by
  rcases hs : s.data with _ | ⟨c, cs⟩
  · exact ⟨.ErrSyntax, by simp [ParseInt]⟩
  · rw [decimalValue_cons s c cs hs] at h
    unfold ParseInt
    simp only []
    generalize (if c = '+' ∨ c = '-' then cs else c :: cs) = s1 at h ⊢
    rcases hP : ParseUint sz s1 with ⟨un, _ | kind⟩
    · exfalso
      unfold ParseUint at hP
      by_cases he : s1 = []
      · simp [he] at hP
      · rw [if_neg he] at hP
        have hd := digits_of_ParseUintLoop _ _ _ _ hP
        simp [he, hd] at h
    · cases kind with
      | ErrSyntax => exact ⟨.ErrSyntax, by simp⟩
      | ErrRange =>
        have hun : un = 2 ^ sz - 1 := by
          unfold ParseUint at hP
          by_cases he : s1 = []
          · simp [he] at hP
          · rw [if_neg he] at hP
            exact ParseUintLoop_range _ _ _ _ hP
        by_cases hm : c = '-'
        · have h1 : un > 2 ^ (sz - 1) := by
            rcases hsz with rfl | rfl <;> norm_num at hun ⊢ <;> omega
          exact ⟨.ErrRange, by simp [hm, h1]⟩
        · have h1 : un ≥ 2 ^ (sz - 1) := by
            rcases hsz with rfl | rfl <;> norm_num at hun ⊢ <;> omega
          exact ⟨.ErrRange, by simp [hm, h1]⟩

theorem Atoi_of_decimal (sz : Nat) (hsz : sz = 32 ∨ sz = 64) (s : String) (n : Int)
    (h : decimalValue s = some n) (hlo : -(2 ^ (sz - 1) : Int) ≤ n) (hhi : n < 2 ^ (sz - 1)) :
    Atoi sz s = (n, none) := by
  unfold Atoi
  simp only []
  split
  · rw [atoiFast_eq, h]
  · rw [ParseInt_of_decimal sz hsz s n h hlo hhi]
    rfl

theorem Atoi_error_of_not_decimal (sz : Nat) (hsz : sz = 32 ∨ sz = 64) (s : String)
    (h : decimalValue s = none) :
    ∃ x kind, Atoi sz s = (x, some (.NumError "Atoi" s kind)) := by
  unfold Atoi
  simp only []
  split
  · rw [atoiFast_eq, h]
    exact ⟨0, .ErrSyntax, rfl⟩
  · obtain ⟨kind, hx⟩ := ParseInt_error_of_not_decimal sz hsz s h
    exact ⟨_, kind, Prod.ext rfl (by simp [hx])⟩

/-! ## The cases of `getDSN` and of the row loop -/

theorem missing_iff (w : World) (key : String) : w.missing key ↔ w.getenv key = "" := by
  unfold World.missing World.getenv
  cases w.environ key <;> simp

theorem getDSN_missing_account (w : World) (ha : w.getenv "SNOWFLAKE_TEST_ACCOUNT" = "") :
    getDSN w = ⟨.exit 1, [.Getenv "SNOWFLAKE_TEST_ACCOUNT",
      .Fatalf "%v environment variable is not set." [.str "SNOWFLAKE_TEST_ACCOUNT"]]⟩ := by
  unfold getDSN
  simp only [env_eq, bind_eq, pure_eq, Go.bind, Go.pure, call]
  simp [ha]

theorem getDSN_missing_user (w : World) (ha : w.getenv "SNOWFLAKE_TEST_ACCOUNT" ≠ "")
    (hu : w.getenv "SNOWFLAKE_TEST_USER" = "") :
    getDSN w = ⟨.exit 1, [.Getenv "SNOWFLAKE_TEST_ACCOUNT", .Getenv "SNOWFLAKE_TEST_USER",
      .Fatalf "%v environment variable is not set." [.str "SNOWFLAKE_TEST_USER"]]⟩ := by
  unfold getDSN
  simp only [env_eq, bind_eq, pure_eq, Go.bind, Go.pure, call]
  simp [ha, hu]

theorem getDSN_missing_kmsarn (w : World) (ha : w.getenv "SNOWFLAKE_TEST_ACCOUNT" ≠ "")
    (hu : w.getenv "SNOWFLAKE_TEST_USER" ≠ "") (hk : w.getenv "SNOWFLAKE_TEST_KMSARN" = "") :
    getDSN w = ⟨.exit 1, envTrace ++
      [.Fatalf "%v environment variable is not set." [.str "SNOWFLAKE_TEST_KMSARN"]]⟩ := by
  unfold getDSN
  simp only [env_eq, bind_eq, pure_eq, Go.bind, Go.pure, call]
  simp only [ha, hu, hk, ne_eq, not_false_eq_true, if_true, Bool.false_eq_true, if_false]
  by_cases hpw : w.getenv "SNOWFLAKE_TEST_PASSWORD" = "" <;>
  by_cases hh : w.getenv "SNOWFLAKE_TEST_HOST" = "" <;>
  by_cases hpr : w.getenv "SNOWFLAKE_TEST_PROTOCOL" = "" <;>
  by_cases hp : w.getenv "SNOWFLAKE_TEST_PORT" = "" <;>
  simp [hpw, hh, hpr, hp, envTrace]

theorem main_flag_exit (w : World) (code : Nat) (hp : w.flagParsed = false)
    (he : w.flagParseExit = some code) : main w = ⟨.exit code, [.flagParse]⟩ := by
  unfold main
  simp only [bind_eq, pure_eq, Go.bind, Go.pure, call, Fatalf, Printf, flagParse]
  simp [hp, he]

theorem rowLoop_all_one (rs : List (Except GoError Int)) (h : ∀ r ∈ rs, r = .ok 1) :
    rowLoop rs = ⟨.ret (), scanTrace rs.length ++ [.rowsNext]⟩ := by
  induction rs with
  | nil => simp [rowLoop, call, scanTrace]
  | cons r rest ih =>
    have hr : r = .ok 1 := h r (List.mem_cons_self _ _)
    have hrest := ih fun x hx => h x (List.mem_cons_of_mem _ hx)
    subst hr
    rw [rowLoop_cons]
    simp [hrest, scanTrace]

theorem rowLoop_mismatch (pre post : List (Except GoError Int)) (v : Int)
    (hpre : ∀ r ∈ pre, r = .ok 1) (hv : v ≠ 1) :
    rowLoop (pre ++ .ok v :: post) =
      ⟨.exit 1, scanTrace (pre.length + 1) ++ [.Fatalf "failed to get 1. got: %v" [.int v]]⟩ := by
  induction pre with
  | nil =>
    rw [List.nil_append, rowLoop_cons]
    simp [hv, scanTrace]
  | cons r rest ih =>
    have hr : r = .ok 1 := hpre r (List.mem_cons_self _ _)
    have hrest := ih fun x hx => hpre x (List.mem_cons_of_mem _ hx)
    subst hr
    rw [List.cons_append, rowLoop_cons]
    simp [hrest, scanTrace]

theorem rowLoop_ret (rs : List (Except GoError Int)) (u : Unit) (h : (rowLoop rs).out = .ret u) :
    ∀ r ∈ rs, r = .ok 1 := by
  induction rs with
  | nil => simp
  | cons r rest ih =>
    rw [rowLoop_cons] at h
    cases r with
    | error e => simp at h
    | ok v =>
      by_cases hv : v = 1
      · subst hv
        simp at h
        intro x hx
        rcases List.mem_cons.mp hx with rfl | hx
        · rfl
        · exact ih h x hx
      · simp [hv] at h

theorem rowLoop_no_Printf (rs : List (Except GoError Int)) (format : String) (as : List Arg) :
    Event.Printf format as ∉ (rowLoop rs).trace := by
  induction rs with
  | nil => simp [rowLoop, call]
  | cons r rest ih =>
    rw [rowLoop_cons]
    cases r with
    | error e => simp
    | ok v => by_cases hv : v = 1 <;> simp [hv, ih]

/-! ## What a trace shows on the standard streams -/

theorem stdout_append (w : World) (l1 l2 : List Event) :
    stdout w (l1 ++ l2) = stdout w l1 ++ stdout w l2 := by
  induction l1 with
  | nil => simp [stdout]
  | cons ev rest ih => cases ev <;> simp [stdout, ih, String.append_assoc]

theorem diagnostics_append (w : World) (l1 l2 : List Event) :
    diagnostics w (l1 ++ l2) = diagnostics w l1 ++ diagnostics w l2 := by
  induction l1 with
  | nil => simp [diagnostics]
  | cons ev rest ih => cases ev <;> simp [diagnostics, ih]

theorem stdout_quiet (w : World) (l : List Event) (h : ∀ ev ∈ l, ev.isOutput = false) :
    stdout w l = "" := by
  induction l with
  | nil => simp [stdout]
  | cons ev rest ih =>
    have h1 := h ev (List.mem_cons_self _ _)
    have h2 := ih fun x hx => h x (List.mem_cons_of_mem _ hx)
    cases ev <;> simp_all [stdout, Event.isOutput]

theorem diagnostics_quiet (w : World) (l : List Event) (h : ∀ ev ∈ l, ev.isOutput = false) :
    diagnostics w l = [] := by
  induction l with
  | nil => simp [diagnostics]
  | cons ev rest ih =>
    have h1 := h ev (List.mem_cons_self _ _)
    have h2 := ih fun x hx => h x (List.mem_cons_of_mem _ hx)
    cases ev <;> simp_all [diagnostics, Event.isOutput]

theorem scanTrace_steps (n : Nat) : ∀ ev ∈ scanTrace n, ev = .rowsNext ∨ ev = .rowsScan := by
  induction n with
  | zero => simp [scanTrace]
  | succ n ih =>
    intro ev hev
    simp only [scanTrace, List.mem_cons] at hev
    rcases hev with h | h | h
    · exact Or.inl h
    · exact Or.inr h
    · exact ih ev h

theorem flagTrace_steps (w : World) : ∀ ev ∈ flagTrace w, ev = .flagParse := by
  unfold flagTrace
  cases w.flagParsed <;> simp

theorem envTrace_steps : ∀ ev ∈ envTrace, ∃ key, ev = .Getenv key := by
  simp [envTrace]

theorem getDSN_trace_events (w : World) :
    ∀ ev ∈ (getDSN w).trace,
      (∃ key, ev = .Getenv key) ∨ (∃ c, ev = .DSN c) ∨
      (∃ key, ev = .Fatalf "%v environment variable is not set." [.str key]) := by
  by_cases ha : w.getenv "SNOWFLAKE_TEST_ACCOUNT" = ""
  · rw [getDSN_missing_account w ha]; simp
  · by_cases hu : w.getenv "SNOWFLAKE_TEST_USER" = ""
    · rw [getDSN_missing_user w ha hu]; simp
    · by_cases hk : w.getenv "SNOWFLAKE_TEST_KMSARN" = ""
      · rw [getDSN_missing_kmsarn w ha hu hk]; simp [envTrace]
      · rw [getDSN_required_ok w ha hu hk]
        split
        · split <;> simp [envTrace]
        · simp [envTrace]

theorem getDSN_ret_events (w : World) (r : String × Option Config × Option GoError)
    (h : (getDSN w).out = .ret r) :
    ∀ ev ∈ (getDSN w).trace, (∃ key, ev = .Getenv key) ∨ (∃ c, ev = .DSN c) := by
  by_cases ha : w.getenv "SNOWFLAKE_TEST_ACCOUNT" = ""
  · rw [getDSN_missing_account w ha] at h; simp at h
  · by_cases hu : w.getenv "SNOWFLAKE_TEST_USER" = ""
    · rw [getDSN_missing_user w ha hu] at h; simp at h
    · by_cases hk : w.getenv "SNOWFLAKE_TEST_KMSARN" = ""
      · rw [getDSN_missing_kmsarn w ha hu hk] at h; simp at h
      · rw [getDSN_required_ok w ha hu hk]
        split
        · split <;> simp [envTrace]
        · simp [envTrace]

theorem getDSN_ret_quiet (w : World) (r : String × Option Config × Option GoError)
    (h : (getDSN w).out = .ret r) :
    ∀ ev ∈ (getDSN w).trace, ev.isOutput = false ∧ ev.isRowStep = false ∧ ev.isFatalf = false := by
  intro ev hev
  rcases getDSN_ret_events w r h ev hev with ⟨key, rfl⟩ | ⟨c, rfl⟩ <;>
    simp [Event.isOutput, Event.isRowStep, Event.isFatalf]

theorem sprintf_env (w : World) (key : String) :
    Sprintf w "%v environment variable is not set." [.str key] =
      key ++ " environment variable is not set." := rfl

theorem sprintf_mismatch (w : World) (v : Int) :
    Sprintf w "failed to get 1. got: %v" [.int v] = "failed to get 1. got: " ++ toString v := by
  have h : Sprintf w "failed to get 1. got: %v" [.int v] =
      "failed to get 1. got: " ++ toString v ++ "" := rfl
  simpa using h

theorem sprintf_query (w : World) (e : GoError) :
    Sprintf w "failed to run a query. %v, err: %v" [.str "SELECT 1", .err (some e)] =
      "failed to run a query. SELECT 1, err: " ++ e.Error w := by
  have h : Sprintf w "failed to run a query. %v, err: %v" [.str "SELECT 1", .err (some e)] =
      "failed to run a query. SELECT 1, err: " ++ e.Error w ++ "" := rfl
  simpa using h

theorem sprintf_error_line (w : World) (e : GoError) :
    Sprintf w "ERROR: %v\n" [.err (some e)] = "ERROR: " ++ e.Error w ++ "\n" := rfl

theorem sprintf_success (w : World) :
    Sprintf w "Congrats! You have successfully run %v with Snowflake DB!\n" [.str "SELECT 1"] =
      successLine := rfl

/-! ## `main` when `getDSN` does not return a connection string -/

theorem flags_cases (w : World) :
    w.flagsAccepted ∨ ∃ code, w.flagParsed = false ∧ w.flagParseExit = some code := by
  unfold World.flagsAccepted
  cases hp : w.flagParsed <;> cases he : w.flagParseExit <;> simp

theorem main_of_getDSN_exit (w : World) (code : Nat) (h : (getDSN w).out = .exit code) :
    (∀ ev ∈ (main w).trace, ev = .flagParse ∨ ev ∈ (getDSN w).trace) ∧
    (∀ u, (main w).out ≠ .ret u) ∧
    (w.flagsAccepted → main w = ⟨.exit code, flagTrace w ++ (getDSN w).trace⟩) := by
  rcases flags_cases w with hf | ⟨c, hp, he⟩
  · have hm : main w = ⟨.exit code, flagTrace w ++ (getDSN w).trace⟩ := by
      rw [main_eq w hf, h]
    refine ⟨?_, ?_, fun _ => hm⟩
    · intro ev hev
      rw [hm] at hev
      rcases List.mem_append.mp hev with h1 | h1
      · exact Or.inl (flagTrace_steps w ev h1)
      · exact Or.inr h1
    · intro u hu
      rw [hm] at hu
      simp at hu
  · have hm := main_flag_exit w c hp he
    refine ⟨?_, ?_, ?_⟩
    · intro ev hev
      rw [hm] at hev
      simp at hev
      exact Or.inl hev
    · intro u hu
      rw [hm] at hu
      simp at hu
    · intro hf
      unfold World.flagsAccepted at hf
      simp [hp, he] at hf

theorem main_of_getDSN_error (w : World) (dsn : String) (cfg : Option Config) (e : GoError)
    (h : (getDSN w).out = .ret (dsn, cfg, some e)) :
    (∀ ev ∈ (main w).trace, ev.isOpenOrQuery = false) ∧
    (∀ u, (main w).out ≠ .ret u) ∧
    (w.flagsAccepted → main w = ⟨.exit 1, flagTrace w ++ (getDSN w).trace ++
      [.Fatalf "failed to create DSN from Config: %v, err: %v" [.cfg cfg, .err (some e)]]⟩) := by
  rcases flags_cases w with hf | ⟨c, hp, he⟩
  · have hm : main w = ⟨.exit 1, flagTrace w ++ (getDSN w).trace ++
        [.Fatalf "failed to create DSN from Config: %v, err: %v" [.cfg cfg, .err (some e)]]⟩ := by
      rw [main_eq w hf, h]
      simp
    refine ⟨?_, ?_, fun _ => hm⟩
    · intro ev hev
      rw [hm] at hev
      simp only [List.mem_append, List.mem_singleton] at hev
      rcases hev with (h1 | h1) | h1
      · rw [flagTrace_steps w ev h1]; rfl
      · rcases getDSN_ret_events w _ h ev h1 with ⟨key, rfl⟩ | ⟨c, rfl⟩ <;> rfl
      · rw [h1]; rfl
    · intro u hu
      rw [hm] at hu
      simp at hu
  · have hm := main_flag_exit w c hp he
    refine ⟨?_, ?_, ?_⟩
    · intro ev hev
      rw [hm] at hev
      simp at hev
      rw [hev]; rfl
    · intro u hu
      rw [hm] at hu
      simp at hu
    · intro hf
      unfold World.flagsAccepted at hf
      simp [hp, he] at hf

theorem getDSN_missing_cases (w : World)
    (h : w.missing "SNOWFLAKE_TEST_ACCOUNT" ∨ w.missing "SNOWFLAKE_TEST_USER" ∨
      w.missing "SNOWFLAKE_TEST_KMSARN") :
    ∃ key pre, firstMissing w = some key ∧ w.missing key ∧
      getDSN w = ⟨.exit 1, pre ++ [.Fatalf "%v environment variable is not set." [.str key]]⟩ ∧
      ∀ ev ∈ pre, ∃ k, ev = .Getenv k := by
  simp only [missing_iff] at h
  by_cases ha : w.getenv "SNOWFLAKE_TEST_ACCOUNT" = ""
  · refine ⟨"SNOWFLAKE_TEST_ACCOUNT", [.Getenv "SNOWFLAKE_TEST_ACCOUNT"], ?_, ?_, ?_, ?_⟩
    · simp [firstMissing, requiredKeys, List.find?, missing_iff, ha]
    · exact (missing_iff _ _).mpr ha
    · exact getDSN_missing_account w ha
    · simp
  · by_cases hu : w.getenv "SNOWFLAKE_TEST_USER" = ""
    · refine ⟨"SNOWFLAKE_TEST_USER",
        [.Getenv "SNOWFLAKE_TEST_ACCOUNT", .Getenv "SNOWFLAKE_TEST_USER"], ?_, ?_, ?_, ?_⟩
      · simp [firstMissing, requiredKeys, List.find?, missing_iff, ha, hu]
      · exact (missing_iff _ _).mpr hu
      · exact getDSN_missing_user w ha hu
      · simp
    · have hk : w.getenv "SNOWFLAKE_TEST_KMSARN" = "" := by
        rcases h with h | h | h
        · exact absurd h ha
        · exact absurd h hu
        · exact h
      refine ⟨"SNOWFLAKE_TEST_KMSARN", envTrace, ?_, ?_, ?_, ?_⟩
      · simp [firstMissing, requiredKeys, List.find?, missing_iff, ha, hu, hk]
      · exact (missing_iff _ _).mpr hk
      · exact getDSN_missing_kmsarn w ha hu hk
      · exact envTrace_steps

/-! ## `main` once the query has been sent -/

theorem setupTrace_steps (w : World) (dsn : String) (r : String × Option Config × Option GoError)
    (h : (getDSN w).out = .ret r) :
    ∀ ev ∈ setupTrace w dsn,
      ev.isOutput = false ∧ ev.isRowStep = false ∧ ev.isFatalf = false := by
  intro ev hev
  simp only [setupTrace, List.mem_append, List.mem_cons, List.mem_singleton,
    List.not_mem_nil, or_false] at hev
  rcases hev with (h1 | h1) | h1 | h1
  · rw [flagTrace_steps w ev h1]; exact ⟨rfl, rfl, rfl⟩
  · exact getDSN_ret_quiet w r h ev h1
  · rw [h1]; exact ⟨rfl, rfl, rfl⟩
  · rw [h1]; exact ⟨rfl, rfl, rfl⟩

theorem main_query_error (w : World) (dsn : String) (cfg : Option Config) (db : DB) (e : GoError)
    (hf : w.flagsAccepted) (hg : (getDSN w).out = .ret (dsn, cfg, none))
    (hopen : w.sqlOpen "snowflake" dsn = .ok db) (hq : w.Query db "SELECT 1" = .error e) :
    main w = ⟨.exit 1, setupTrace w dsn ++
      [.Fatalf "failed to run a query. %v, err: %v" [.str "SELECT 1", .err (some e)]]⟩ := by
  rw [main_eq w hf, hg]
  simp [hopen, hq, setupTrace]

theorem main_rows (w : World) (dsn : String) (cfg : Option Config) (db : DB) (rows : Rows)
    (hf : w.flagsAccepted) (hg : (getDSN w).out = .ret (dsn, cfg, none))
    (hopen : w.sqlOpen "snowflake" dsn = .ok db) (hq : w.Query db "SELECT 1" = .ok rows) :
    main w =
      match (rowLoop rows.pending).out with
      | .exit code => ⟨.exit code, setupTrace w dsn ++ (rowLoop rows.pending).trace⟩
      | .ret _ =>
        if rows.err ≠ none then
          ⟨.ret (), setupTrace w dsn ++ (rowLoop rows.pending).trace ++
            [.rowsErr, .rowsErr, .Printf "ERROR: %v\n" [.err rows.err], .rowsClose, .dbClose]⟩
        else
          ⟨.ret (), setupTrace w dsn ++ (rowLoop rows.pending).trace ++
            [.rowsErr, successPrintf, .rowsClose, .dbClose]⟩ := by
  rw [main_eq w hf, hg]
  simp [hopen, hq, setupTrace, successPrintf]

theorem stdout_scan (w : World) (dsn : String) (r : String × Option Config × Option GoError)
    (h : (getDSN w).out = .ret r) (n : Nat) (rest : List Event) :
    stdout w (setupTrace w dsn ++ scanTrace n ++ rest) = stdout w rest ∧
    diagnostics w (setupTrace w dsn ++ scanTrace n ++ rest) = diagnostics w rest := by
  have h1 : ∀ ev ∈ setupTrace w dsn ++ scanTrace n, ev.isOutput = false := by
    intro ev hev
    rcases List.mem_append.mp hev with h2 | h2
    · exact (setupTrace_steps w dsn r h ev h2).1
    · rcases scanTrace_steps n ev h2 with rfl | rfl <;> rfl
  constructor
  · rw [stdout_append, stdout_quiet w _ h1]
    simp
  · rw [diagnostics_append, diagnostics_quiet w _ h1]
    simp

theorem not_success_of_quiet (l : List Event) (h : ∀ ev ∈ l, ev.isOutput = false) :
    successPrintf ∉ l := by
  intro hmem
  have := h _ hmem
  simp [successPrintf, Event.isOutput] at this

theorem includes_right (a b : String) : includes (a ++ b) b :=
  ⟨a.data, [], by simp⟩

theorem includes_mid (a b c : String) : includes (a ++ b ++ c) b :=
  ⟨a.data, c.data, by simp⟩

/-! ## The claims -/

/-- C1: when a required key (account, user, KMS ARN) is absent or empty, whatever the other
keys hold, `getDSN` ends the process with status 1 and one diagnostic, which names the first
missing required key in the order account, user, KMS ARN; neither `getDSN` nor `main` calls
the DSN encoder, `sql.Open` or `Query`, and `main` does not return. -/
theorem getDSN_aborts_on_missing_required_key (w : World)
    (h : w.missing "SNOWFLAKE_TEST_ACCOUNT" ∨ w.missing "SNOWFLAKE_TEST_USER" ∨
      w.missing "SNOWFLAKE_TEST_KMSARN") :
    ∃ key, firstMissing w = some key ∧ w.missing key ∧
      (getDSN w).out = .exit 1 ∧
      diagnostics w (getDSN w).trace = [key ++ " environment variable is not set."] ∧
      (∀ ev ∈ (getDSN w).trace, ev.isConnect = false) ∧
      (∀ ev ∈ (main w).trace, ev.isConnect = false) ∧
      (∀ u, (main w).out ≠ .ret u) ∧
      (w.flagsAccepted → (main w).out = .exit 1 ∧
        diagnostics w (main w).trace = [key ++ " environment variable is not set."]) := by
  obtain ⟨key, pre, hfirst, hmiss, hg, hpre⟩ := getDSN_missing_cases w h
  have hout : (getDSN w).out = .exit 1 := by rw [hg]
  have hquiet : ∀ ev ∈ pre, ev.isOutput = false := by
    intro ev hev
    obtain ⟨k, rfl⟩ := hpre ev hev
    rfl
  have hdiag : diagnostics w (getDSN w).trace = [key ++ " environment variable is not set."] := by
    rw [hg]
    simp only [diagnostics_append, diagnostics_quiet w pre hquiet, diagnostics, sprintf_env,
      List.nil_append]
  have hconn : ∀ ev ∈ (getDSN w).trace, ev.isConnect = false := by
    intro ev hev
    rw [hg] at hev
    simp only [List.mem_append, List.mem_singleton] at hev
    rcases hev with h1 | h1
    · obtain ⟨k, rfl⟩ := hpre ev h1
      rfl
    · rw [h1]; rfl
  obtain ⟨hsub, hnoret, hacc⟩ := main_of_getDSN_exit w 1 hout
  refine ⟨key, hfirst, hmiss, hout, hdiag, hconn, ?_, hnoret, ?_⟩
  · intro ev hev
    rcases hsub ev hev with h1 | h1
    · rw [h1]; rfl
    · exact hconn ev h1
  · intro hf
    have hm := hacc hf
    refine ⟨by rw [hm], ?_⟩
    rw [hm]
    have hfq : ∀ ev ∈ flagTrace w, ev.isOutput = false := by
      intro ev hev
      rw [flagTrace_steps w ev hev]; rfl
    simp only [diagnostics_append, diagnostics_quiet w _ hfq, hdiag, List.nil_append]

/-- C1 on a run whose account is set and whose user is empty: the diagnostic names the user key. -/
theorem getDSN_aborts_on_missing_required_key_witness :
    wMissingUser.missing "SNOWFLAKE_TEST_USER" ∧
    ∃ key, firstMissing wMissingUser = some key ∧ key = "SNOWFLAKE_TEST_USER" ∧
      (getDSN wMissingUser).out = .exit 1 ∧
      diagnostics wMissingUser (getDSN wMissingUser).trace =
        [key ++ " environment variable is not set."] := by
  have hm : wMissingUser.missing "SNOWFLAKE_TEST_USER" := by decide
  obtain ⟨key, hfirst, -, hout, hdiag, -⟩ :=
    getDSN_aborts_on_missing_required_key wMissingUser (Or.inr (Or.inl hm))
  have hkey : firstMissing wMissingUser = some "SNOWFLAKE_TEST_USER" := by decide
  exact ⟨hm, key, hfirst, Option.some.inj (hfirst.symm.trans hkey), hout, hdiag⟩

/-- C2: with the three required keys non-empty and `SNOWFLAKE_TEST_PORT` a non-empty string
that is not a base-10 integer, `getDSN` returns: an empty DSN, no configuration record, and
the error of `strconv.Atoi`. `main` never calls `sql.Open` or `Query` and does not return;
when the command line is accepted it ends with status 1 in the diagnostic for that error. -/
theorem getDSN_returns_port_parse_error (w : World) (port : String)
    (ha : ¬ w.missing "SNOWFLAKE_TEST_ACCOUNT") (hu : ¬ w.missing "SNOWFLAKE_TEST_USER")
    (hk : ¬ w.missing "SNOWFLAKE_TEST_KMSARN")
    (hp : w.environ "SNOWFLAKE_TEST_PORT" = some port) (hne : port ≠ "")
    (hbad : decimalValue port = none) :
    ∃ kind,
      (Atoi w.intSize port).2 = some (.NumError "Atoi" port kind) ∧
      getDSN w = ⟨.ret ("", none, some (.NumError "Atoi" port kind)), envTrace⟩ ∧
      (∀ ev ∈ (main w).trace, ev.isOpenOrQuery = false) ∧
      (∀ u, (main w).out ≠ .ret u) ∧
      (w.flagsAccepted → main w = ⟨.exit 1, flagTrace w ++ envTrace ++
        [.Fatalf "failed to create DSN from Config: %v, err: %v"
          [.cfg none, .err (some (.NumError "Atoi" port kind))]]⟩) := by
  rw [missing_iff] at ha hu hk
  have hport : w.getenv "SNOWFLAKE_TEST_PORT" = port := by simp [World.getenv, hp]
  obtain ⟨x, kind, hx⟩ := Atoi_error_of_not_decimal w.intSize w.intSize_ok port hbad
  have hg : getDSN w = ⟨.ret ("", none, some (.NumError "Atoi" port kind)), envTrace⟩ := by
    rw [getDSN_required_ok w ha hu hk, hport, if_pos hne, hx]
  have hout : (getDSN w).out = .ret ("", none, some (.NumError "Atoi" port kind)) := by rw [hg]
  obtain ⟨h1, h2, h3⟩ := main_of_getDSN_error w "" none _ hout
  refine ⟨kind, by rw [hx], hg, h1, h2, fun hf => ?_⟩
  rw [h3 hf, hg]

/-- C2 on the run whose port is the text `44x3`. -/
theorem getDSN_returns_port_parse_error_witness :
    decimalValue "44x3" = none ∧
    ∃ kind, getDSN (withPort "44x3") =
      ⟨.ret ("", none, some (.NumError "Atoi" "44x3" kind)), envTrace⟩ := by
  obtain ⟨kind, -, hg, -⟩ := getDSN_returns_port_parse_error (withPort "44x3") "44x3"
    (by decide) (by decide) (by decide) rfl (by decide) (by decide)
  exact ⟨by decide, kind, hg⟩

/-- C3, as the code has it: with the three required keys non-empty and
`SNOWFLAKE_TEST_PORT` unset, empty, or a base-10 integer string whose value fits Go's `int`,
the record `getDSN` builds, which is the operand of its one call to the encoder, has
`Account`, `User`, `Password`, `Host`, `Protocol` and `AWSKMSKeyARN` equal to the values of
the environment keys, `Authenticator` equal to the KMS-JWT tag, and `Port` equal to 443
without a port string and to the parsed integer otherwise; `getDSN` returns the string and
the error of that call, with the record as the encoder has left it. -/
theorem getDSN_builds_config (w : World) (port : Int)
    (ha : ¬ w.missing "SNOWFLAKE_TEST_ACCOUNT") (hu : ¬ w.missing "SNOWFLAKE_TEST_USER")
    (hk : ¬ w.missing "SNOWFLAKE_TEST_KMSARN")
    (hport : (w.missing "SNOWFLAKE_TEST_PORT" ∧ port = 443) ∨
      (decimalValue (w.getenv "SNOWFLAKE_TEST_PORT") = some port ∧
        -(2 ^ (w.intSize - 1) : Int) ≤ port ∧ port < 2 ^ (w.intSize - 1))) :
    ∃ cfg,
      (getDSN w).trace = envTrace ++ [.DSN cfg] ∧
      (getDSN w).out = .ret ((w.DSN cfg).2.1, some (w.DSN cfg).1, (w.DSN cfg).2.2) ∧
      cfg.Account = w.getenv "SNOWFLAKE_TEST_ACCOUNT" ∧
      cfg.User = w.getenv "SNOWFLAKE_TEST_USER" ∧
      cfg.Password = w.getenv "SNOWFLAKE_TEST_PASSWORD" ∧
      cfg.Host = w.getenv "SNOWFLAKE_TEST_HOST" ∧
      cfg.Protocol = w.getenv "SNOWFLAKE_TEST_PROTOCOL" ∧
      cfg.AWSKMSKeyARN = w.getenv "SNOWFLAKE_TEST_KMSARN" ∧
      cfg.Authenticator = .AuthTypeKMSJwt ∧
      cfg.Port = port := by
  rw [missing_iff] at ha hu hk
  refine ⟨configOf w port, ?_, ?_, rfl, rfl, rfl, rfl, rfl, rfl, rfl, rfl⟩
  all_goals rw [getDSN_required_ok w ha hu hk]
  all_goals rcases hport with ⟨hm, rfl⟩ | ⟨hd, hlo, hhi⟩
  · rw [missing_iff] at hm
    simp [hm]
  · have hne : w.getenv "SNOWFLAKE_TEST_PORT" ≠ "" := by
      intro h0
      rw [h0] at hd
      simp [decimalValue] at hd
    rw [if_pos hne, Atoi_of_decimal w.intSize w.intSize_ok _ port hd hlo hhi]
  · rw [missing_iff] at hm
    simp [hm]
  · have hne : w.getenv "SNOWFLAKE_TEST_PORT" ≠ "" := by
      intro h0
      rw [h0] at hd
      simp [decimalValue] at hd
    rw [if_pos hne, Atoi_of_decimal w.intSize w.intSize_ok _ port hd hlo hhi]

/-- C3 as amended, on the run whose port is the text `8443`: the record handed to the
encoder has port 8443 and the host of the environment, which is empty. -/
theorem getDSN_builds_config_witness :
    decimalValue ((withPort "8443").getenv "SNOWFLAKE_TEST_PORT") = some 8443 ∧
    ∃ cfg, (getDSN (withPort "8443")).trace = envTrace ++ [.DSN cfg] ∧
      cfg.Host = "" ∧ cfg.Port = 8443 := by
  obtain ⟨cfg, htr, -, -, -, -, hhost, -, -, -, hport⟩ :=
    getDSN_builds_config (withPort "8443") 8443
      (by decide) (by decide) (by decide) (Or.inr ⟨by decide, by decide, by decide⟩)
  exact ⟨by decide, cfg, htr, hhost.trans (by decide), hport⟩

/-- C3 fails as stated. With the three required keys set and the port the base-10 integer
string `99999999999999999999`, `getDSN` builds no configuration record and returns only the
range error of `strconv.Atoi`. And in the run `wOk`, where the host and the protocol are
unset, the record `getDSN` returns has the host and the protocol the encoder wrote into it,
not the empty strings of the environment. -/
theorem getDSN_no_config_beyond_int_range :
    (¬ (withPort "99999999999999999999").missing "SNOWFLAKE_TEST_ACCOUNT" ∧
     ¬ (withPort "99999999999999999999").missing "SNOWFLAKE_TEST_USER" ∧
     ¬ (withPort "99999999999999999999").missing "SNOWFLAKE_TEST_KMSARN" ∧
     (withPort "99999999999999999999").environ "SNOWFLAKE_TEST_PORT" =
       some "99999999999999999999" ∧
     decimalValue "99999999999999999999" = some 99999999999999999999 ∧
     (getDSN (withPort "99999999999999999999")).out =
       .ret ("", none, some (.NumError "Atoi" "99999999999999999999" .ErrRange)) ∧
     (getDSN (withPort "99999999999999999999")).trace = envTrace) ∧
    (wOk.environ "SNOWFLAKE_TEST_HOST" = none ∧
     wOk.environ "SNOWFLAKE_TEST_PROTOCOL" = none ∧
     (getDSN wOk).out = .ret ("usr@acct.snowflakecomputing.com", some cfgRet, none) ∧
     cfgRet.Host = "acct.snowflakecomputing.com" ∧
     cfgRet.Protocol = "https") := by
  decide

theorem getDSN_congr (w w2 : World)
    (hkeys : ∀ key ∈ sevenKeys, w.environ key = w2.environ key) (hdsn : w.DSN = w2.DSN)
    (hint : w.intSize = w2.intSize) : getDSN w = getDSN w2 := by
  have hget : ∀ key ∈ sevenKeys, w.getenv key = w2.getenv key := by
    intro key hkey
    simp [World.getenv, hkeys key hkey]
  have hA := hget "SNOWFLAKE_TEST_ACCOUNT" (by simp [sevenKeys])
  have hU := hget "SNOWFLAKE_TEST_USER" (by simp [sevenKeys])
  have hW := hget "SNOWFLAKE_TEST_PASSWORD" (by simp [sevenKeys])
  have hH := hget "SNOWFLAKE_TEST_HOST" (by simp [sevenKeys])
  have hP := hget "SNOWFLAKE_TEST_PORT" (by simp [sevenKeys])
  have hR := hget "SNOWFLAKE_TEST_PROTOCOL" (by simp [sevenKeys])
  have hK := hget "SNOWFLAKE_TEST_KMSARN" (by simp [sevenKeys])
  have hcfg : ∀ p, configOf w p = configOf w2 p := by
    intro p
    simp [configOf, hA, hU, hW, hH, hR, hK]
  by_cases ha : w.getenv "SNOWFLAKE_TEST_ACCOUNT" = ""
  · rw [getDSN_missing_account w ha, getDSN_missing_account w2 (hA ▸ ha)]
  · by_cases hu : w.getenv "SNOWFLAKE_TEST_USER" = ""
    · rw [getDSN_missing_user w ha hu, getDSN_missing_user w2 (hA ▸ ha) (hU ▸ hu)]
    · by_cases hk : w.getenv "SNOWFLAKE_TEST_KMSARN" = ""
      · rw [getDSN_missing_kmsarn w ha hu hk,
          getDSN_missing_kmsarn w2 (hA ▸ ha) (hU ▸ hu) (hK ▸ hk)]
      · rw [getDSN_required_ok w ha hu hk,
          getDSN_required_ok w2 (hA ▸ ha) (hU ▸ hu) (hK ▸ hk)]
        simp only [hcfg, hP, hdsn, hint]

theorem getDSN_ret_record (w : World) (dsn : String) (cfg : Config) (err : Option GoError)
    (h : (getDSN w).out = .ret (dsn, some cfg, err)) :
    ∃ port,
      (w.getenv "SNOWFLAKE_TEST_PORT" = "" → port = 443) ∧
      (w.getenv "SNOWFLAKE_TEST_PORT" ≠ "" →
        Atoi w.intSize (w.getenv "SNOWFLAKE_TEST_PORT") = (port, none)) ∧
      (getDSN w).trace = envTrace ++ [.DSN (configOf w port)] ∧
      w.DSN (configOf w port) = (cfg, dsn, err) := by
  by_cases ha : w.getenv "SNOWFLAKE_TEST_ACCOUNT" = ""
  · rw [getDSN_missing_account w ha] at h; simp at h
  · by_cases hu : w.getenv "SNOWFLAKE_TEST_USER" = ""
    · rw [getDSN_missing_user w ha hu] at h; simp at h
    · by_cases hk : w.getenv "SNOWFLAKE_TEST_KMSARN" = ""
      · rw [getDSN_missing_kmsarn w ha hu hk] at h; simp at h
      · rw [getDSN_required_ok w ha hu hk] at h ⊢
        by_cases hp : w.getenv "SNOWFLAKE_TEST_PORT" = ""
        · have hp2 : ¬ (w.getenv "SNOWFLAKE_TEST_PORT" ≠ "") := by simp [hp]
          rw [if_neg hp2] at h ⊢
          simp only [Outcome.ret.injEq, Prod.mk.injEq, Option.some.injEq] at h
          obtain ⟨h1, h2, h3⟩ := h
          exact ⟨443, fun _ => rfl, fun hne => absurd hp hne, rfl,
            Prod.ext h2 (Prod.ext h1 h3)⟩
        · rw [if_pos hp] at h ⊢
          rcases hA : Atoi w.intSize (w.getenv "SNOWFLAKE_TEST_PORT") with ⟨p, _ | e⟩
          · rw [hA] at h
            simp only [Outcome.ret.injEq, Prod.mk.injEq, Option.some.injEq] at h
            obtain ⟨h1, h2, h3⟩ := h
            exact ⟨p, fun h0 => absurd h0 hp, fun _ => rfl, rfl,
              Prod.ext h2 (Prod.ext h1 h3)⟩
          · rw [hA] at h
            simp at h

/-- C4, as the code has it: whenever `getDSN` returns a configuration record, the string and
the error it returns with it are the driver's DSN encoding of the record `getDSN` built from
the environment (443 or the parsed port), in its one call to the encoder, and the record
returned is that record as the encoder has left it; and two runs whose environments agree on
the seven keys, with the same encoder and the same `int` size, end `getDSN` the same way
with the same calls, so with identical records and identical connection strings. -/
theorem getDSN_string_is_encoding_of_built_config (w w2 : World)
    (hkeys : ∀ key ∈ sevenKeys, w.environ key = w2.environ key) (hdsn : w.DSN = w2.DSN)
    (hint : w.intSize = w2.intSize) :
    getDSN w = getDSN w2 ∧
    ∀ dsn cfg err, (getDSN w).out = .ret (dsn, some cfg, err) →
      ∃ port,
        (w.getenv "SNOWFLAKE_TEST_PORT" = "" → port = 443) ∧
        (w.getenv "SNOWFLAKE_TEST_PORT" ≠ "" →
          Atoi w.intSize (w.getenv "SNOWFLAKE_TEST_PORT") = (port, none)) ∧
        (getDSN w).trace = envTrace ++ [.DSN (configOf w port)] ∧
        w.DSN (configOf w port) = (cfg, dsn, err) ∧
        (getDSN w2).out = .ret (dsn, some cfg, err) := by
  have hc := getDSN_congr w w2 hkeys hdsn hint
  refine ⟨hc, ?_⟩
  intro dsn cfg err h
  obtain ⟨port, h1, h2, h3, h4⟩ := getDSN_ret_record w dsn cfg err h
  exact ⟨port, h1, h2, h3, h4, hc ▸ h⟩

/-- C4 as amended, on the runs `wOk` and `wOther`, which differ in a variable outside the
seven keys, in the flags and in the query: both return the string that encodes the record
built from the environment, and the record the encoder has filled. -/
theorem getDSN_string_is_encoding_of_built_config_witness :
    wOk.environ "HOME" ≠ wOther.environ "HOME" ∧
    getDSN wOk = getDSN wOther ∧
    (getDSN wOk).out = .ret ("usr@acct.snowflakecomputing.com", some cfgRet, none) ∧
    wOk.DSN cfgOk = (cfgRet, "usr@acct.snowflakecomputing.com", none) ∧
    (getDSN wOther).out = .ret ("usr@acct.snowflakecomputing.com", some cfgRet, none) := by
  have h := getDSN_string_is_encoding_of_built_config wOk wOther (by decide) rfl rfl
  have hout : (getDSN wOk).out = .ret ("usr@acct.snowflakecomputing.com", some cfgRet, none) := by
    decide
  obtain ⟨port, -, -, -, -, h5⟩ := h.2 _ _ _ hout
  exact ⟨by decide, h.1, hout, by decide, h5⟩

/-- C4 fails as stated: in the run `wOk` the string `getDSN` returns is not the encoding of
the record it returns. The encoder filled the host of the record it was handed, so the
record returned differs from the record that was encoded, and encoding the record returned
gives another string. -/
theorem getDSN_string_not_encoding_of_returned_config :
    (getDSN wOk).out = .ret ("usr@acct.snowflakecomputing.com", some cfgRet, none) ∧
    (getDSN wOk).trace = envTrace ++ [.DSN cfgOk] ∧
    cfgOk.Host = "" ∧ cfgRet.Host = "acct.snowflakecomputing.com" ∧
    (wOk.DSN cfgRet).2.1 = "usr@acct.snowflakecomputing.com?account=acct" ∧
    (wOk.DSN cfgRet).2.1 ≠ "usr@acct.snowflakecomputing.com" := by
  decide

/-- C5: with the command line accepted, the three required keys set, the four optional keys
unset, an encoder and `sql.Open` that succeed, and a query that returns exactly one row
decoding to 1 with no deferred row-stream error, `main` makes exactly the calls listed,
writes exactly the success line to standard output, never calls `log.Fatalf`, and returns
normally, so the exit status is 0. -/
theorem main_prints_success (w : World) (a u k dsn : String) (cfg : Config) (db : DB)
    (rows : Rows)
    (hf : w.flagsAccepted)
    (ha : w.environ "SNOWFLAKE_TEST_ACCOUNT" = some a) (ha0 : a ≠ "")
    (hu : w.environ "SNOWFLAKE_TEST_USER" = some u) (hu0 : u ≠ "")
    (hk : w.environ "SNOWFLAKE_TEST_KMSARN" = some k) (hk0 : k ≠ "")
    (hpw : w.environ "SNOWFLAKE_TEST_PASSWORD" = none)
    (hhost : w.environ "SNOWFLAKE_TEST_HOST" = none)
    (hport : w.environ "SNOWFLAKE_TEST_PORT" = none)
    (hproto : w.environ "SNOWFLAKE_TEST_PROTOCOL" = none)
    (hdsn : w.DSN ⟨a, u, "", "", 443, "", .AuthTypeKMSJwt, k⟩ = (cfg, dsn, none))
    (hopen : w.sqlOpen "snowflake" dsn = .ok db)
    (hq : w.Query db "SELECT 1" = .ok rows)
    (hrows : rows.pending = [.ok 1]) (herr : rows.err = none) :
    main w = ⟨.ret (), flagTrace w ++ envTrace ++
      [.DSN ⟨a, u, "", "", 443, "", .AuthTypeKMSJwt, k⟩, .sqlOpen "snowflake" dsn,
       .Query "SELECT 1", .rowsNext, .rowsScan, .rowsNext, .rowsErr, successPrintf,
       .rowsClose, .dbClose]⟩ ∧
    stdout w (main w).trace = successLine ∧
    (∀ ev ∈ (main w).trace, ev.isFatalf = false) ∧
    (main w).out = .ret () ∧
    (main w).exitStatus = 0 := by
  have hA : w.getenv "SNOWFLAKE_TEST_ACCOUNT" = a := by simp [World.getenv, ha]
  have hU : w.getenv "SNOWFLAKE_TEST_USER" = u := by simp [World.getenv, hu]
  have hK : w.getenv "SNOWFLAKE_TEST_KMSARN" = k := by simp [World.getenv, hk]
  have hW : w.getenv "SNOWFLAKE_TEST_PASSWORD" = "" := by simp [World.getenv, hpw]
  have hH : w.getenv "SNOWFLAKE_TEST_HOST" = "" := by simp [World.getenv, hhost]
  have hP : w.getenv "SNOWFLAKE_TEST_PORT" = "" := by simp [World.getenv, hport]
  have hR : w.getenv "SNOWFLAKE_TEST_PROTOCOL" = "" := by simp [World.getenv, hproto]
  have hcfg : configOf w 443 = ⟨a, u, "", "", 443, "", .AuthTypeKMSJwt, k⟩ := by
    simp [configOf, hA, hU, hK, hW, hH, hR]
  have hg : getDSN w = ⟨.ret (dsn, some cfg, none),
      envTrace ++ [.DSN ⟨a, u, "", "", 443, "", .AuthTypeKMSJwt, k⟩]⟩ := by
    rw [getDSN_required_ok w (by rw [hA]; exact ha0) (by rw [hU]; exact hu0)
      (by rw [hK]; exact hk0)]
    simp [hP, hcfg, hdsn]
  have hm : main w = ⟨.ret (), flagTrace w ++ envTrace ++
      [.DSN ⟨a, u, "", "", 443, "", .AuthTypeKMSJwt, k⟩, .sqlOpen "snowflake" dsn,
       .Query "SELECT 1", .rowsNext, .rowsScan, .rowsNext, .rowsErr, successPrintf,
       .rowsClose, .dbClose]⟩ := by
    rw [main_rows w dsn _ db rows hf (by rw [hg]) hopen hq, hrows,
      rowLoop_all_one [.ok 1] (by simp)]
    simp [herr, setupTrace, hg, scanTrace]
  have hfq : ∀ ev ∈ flagTrace w ++ envTrace, ev.isOutput = false ∧ ev.isFatalf = false := by
    intro ev hev
    rcases List.mem_append.mp hev with h1 | h1
    · rw [flagTrace_steps w ev h1]; exact ⟨rfl, rfl⟩
    · obtain ⟨key, rfl⟩ := envTrace_steps ev h1
      exact ⟨rfl, rfl⟩
  refine ⟨hm, ?_, ?_, by rw [hm], by rw [hm]; rfl⟩
  · rw [hm]
    simp only [stdout_append, stdout_quiet w _ fun ev hev => (hfq ev hev).1]
    simp [stdout, successPrintf, sprintf_success]
  · intro ev hev
    rw [hm] at hev
    simp only [List.mem_append, List.mem_cons, List.mem_singleton, List.not_mem_nil,
      or_false] at hev
    rcases hev with h1 | h1
    · exact (hfq ev (List.mem_append.mpr h1)).2
    · rcases h1 with h1 | h1 | h1 | h1 | h1 | h1 | h1 | h1 | h1 | h1 <;> rw [h1] <;> rfl

/-- C5 on the run `wOk`. -/
theorem main_prints_success_witness :
    stdout wOk (main wOk).trace =
      "Congrats! You have successfully run SELECT 1 with Snowflake DB!\n" ∧
    (main wOk).out = .ret () ∧ (main wOk).exitStatus = 0 :=
  have h := main_prints_success wOk "acct" "usr" "arn:aws:kms:us-east-1:123456789:key/mrk-1"
    "usr@acct.snowflakecomputing.com" cfgRet ⟨0⟩ ⟨[.ok 1], none⟩ (by decide) rfl (by decide) rfl (by decide) rfl (by decide)
    rfl rfl rfl rfl (by decide) rfl rfl rfl rfl
  ⟨h.2.1, h.2.2.2.1, h.2.2.2.2⟩

/-- C6, as the code has it: when the query has returned a result stream in which some row
decodes to an integer `v` different from 1 and every row before it decodes to 1, `main` ends
with status 1 right after decoding that row, its one diagnostic is the mismatch message with
1 expected and `v` received, it advances to no later row, and standard output stays empty. -/
theorem main_fatal_on_first_mismatch (w : World) (dsn : String) (cfg : Option Config) (db : DB)
    (rows : Rows) (pre post : List (Except GoError Int)) (v : Int)
    (hf : w.flagsAccepted) (hg : (getDSN w).out = .ret (dsn, cfg, none))
    (hopen : w.sqlOpen "snowflake" dsn = .ok db) (hq : w.Query db "SELECT 1" = .ok rows)
    (hrows : rows.pending = pre ++ .ok v :: post) (hpre : ∀ r ∈ pre, r = .ok 1)
    (hv : v ≠ 1) :
    main w = ⟨.exit 1, setupTrace w dsn ++ scanTrace (pre.length + 1) ++
      [.Fatalf "failed to get 1. got: %v" [.int v]]⟩ ∧
    diagnostics w (main w).trace = ["failed to get 1. got: " ++ toString v] ∧
    stdout w (main w).trace = "" ∧
    (main w).exitStatus = 1 := by
  have hm : main w = ⟨.exit 1, setupTrace w dsn ++ scanTrace (pre.length + 1) ++
      [.Fatalf "failed to get 1. got: %v" [.int v]]⟩ := by
    rw [main_rows w dsn cfg db rows hf hg hopen hq, hrows, rowLoop_mismatch pre post v hpre hv]
    simp
  have hs := stdout_scan w dsn _ hg (pre.length + 1)
    [.Fatalf "failed to get 1. got: %v" [.int v]]
  refine ⟨hm, ?_, ?_, by rw [hm]; rfl⟩
  · rw [hm]
    simp only [hs.2, diagnostics, sprintf_mismatch]
  · rw [hm]
    simp only [hs.1, stdout]

/-- C6 as amended, on the run whose query returns the single row 2. -/
theorem main_fatal_on_first_mismatch_witness :
    diagnostics (withQuery (.ok ⟨[.ok 2], none⟩)) (main (withQuery (.ok ⟨[.ok 2], none⟩))).trace =
      ["failed to get 1. got: 2"] ∧
    stdout (withQuery (.ok ⟨[.ok 2], none⟩)) (main (withQuery (.ok ⟨[.ok 2], none⟩))).trace = "" ∧
    (main (withQuery (.ok ⟨[.ok 2], none⟩))).exitStatus = 1 :=
  (main_fatal_on_first_mismatch (withQuery (.ok ⟨[.ok 2], none⟩)) "usr@acct.snowflakecomputing.com"
    (some cfgRet) ⟨0⟩
    ⟨[.ok 2], none⟩ [] [] 2 (by decide) (by decide) rfl rfl rfl (by simp) (by decide)).2

/-- C6 fails as stated: in this result stream the second row decodes to 2, yet `main` ends at
the first row, which fails to decode, and its diagnostic is the decode failure, not the
mismatch. -/
theorem main_scan_error_precedes_mismatch :
    (withQuery (.ok ⟨[.error (.errorString "scan failed"), .ok 2], none⟩)).Query ⟨0⟩ "SELECT 1" =
      .ok ⟨[.error (.errorString "scan failed"), .ok 2], none⟩ ∧
    diagnostics (withQuery (.ok ⟨[.error (.errorString "scan failed"), .ok 2], none⟩))
        (main (withQuery (.ok ⟨[.error (.errorString "scan failed"), .ok 2], none⟩))).trace =
      ["failed to get result. err: scan failed"] ∧
    diagnostics (withQuery (.ok ⟨[.error (.errorString "scan failed"), .ok 2], none⟩))
        (main (withQuery (.ok ⟨[.error (.errorString "scan failed"), .ok 2], none⟩))).trace ≠
      ["failed to get 1. got: 2"] ∧
    ((main (withQuery (.ok ⟨[.error (.errorString "scan failed"), .ok 2], none⟩))).trace.filter
      fun ev => decide (ev = .rowsScan)) = [.rowsScan] :=
  ⟨rfl, by decide, by decide, by decide⟩

/-- C7: when the query call returns an error, `main` ends with status 1 in the diagnostic of
the failed query, right after the call: it never calls `rows.Next` or `rows.Scan`, and it
writes nothing to standard output, neither the success line nor an `ERROR:` line. -/
theorem main_fatal_on_query_error (w : World) (dsn : String) (cfg : Option Config) (db : DB)
    (e : GoError)
    (hf : w.flagsAccepted) (hg : (getDSN w).out = .ret (dsn, cfg, none))
    (hopen : w.sqlOpen "snowflake" dsn = .ok db) (hq : w.Query db "SELECT 1" = .error e) :
    main w = ⟨.exit 1, setupTrace w dsn ++
      [.Fatalf "failed to run a query. %v, err: %v" [.str "SELECT 1", .err (some e)]]⟩ ∧
    (∀ ev ∈ (main w).trace, ev.isRowStep = false) ∧
    stdout w (main w).trace = "" ∧
    (main w).exitStatus = 1 := by
  have hm := main_query_error w dsn cfg db e hf hg hopen hq
  refine ⟨hm, ?_, ?_, by rw [hm]; rfl⟩
  · intro ev hev
    rw [hm] at hev
    rcases List.mem_append.mp hev with h1 | h1
    · exact (setupTrace_steps w dsn _ hg ev h1).2.1
    · rw [List.mem_singleton.mp h1]; rfl
  · rw [hm]
    have hs := stdout_scan w dsn _ hg 0
      [.Fatalf "failed to run a query. %v, err: %v" [.str "SELECT 1", .err (some e)]]
    simp only [scanTrace, List.append_nil] at hs
    simp only [hs.1, stdout]

/-- C7 on the run whose query fails with `network down`. -/
theorem main_fatal_on_query_error_witness :
    (∀ ev ∈ (main (withQuery (.error (.errorString "network down")))).trace,
      ev.isRowStep = false) ∧
    stdout (withQuery (.error (.errorString "network down")))
      (main (withQuery (.error (.errorString "network down")))).trace = "" ∧
    (main (withQuery (.error (.errorString "network down")))).exitStatus = 1 :=
  (main_fatal_on_query_error (withQuery (.error (.errorString "network down"))) "usr@acct.snowflakecomputing.com"
    (some cfgRet) ⟨0⟩ (.errorString "network down") (by decide) (by decide) rfl rfl).2

/-- C8: when every row of the result stream decodes to 1 and the deferred row-stream check
reports the error `e`, `main` writes exactly the line `ERROR: ` followed by `e` to standard
output, does not print the success line, never calls `log.Fatalf`, and returns normally after
the deferred closes, so the exit status is 0. -/
theorem main_reports_deferred_error (w : World) (dsn : String) (cfg : Option Config) (db : DB)
    (rows : Rows) (e : GoError)
    (hf : w.flagsAccepted) (hg : (getDSN w).out = .ret (dsn, cfg, none))
    (hopen : w.sqlOpen "snowflake" dsn = .ok db) (hq : w.Query db "SELECT 1" = .ok rows)
    (hrows : ∀ r ∈ rows.pending, r = .ok 1) (herr : rows.err = some e) :
    main w = ⟨.ret (), setupTrace w dsn ++ scanTrace rows.pending.length ++
      [.rowsNext, .rowsErr, .rowsErr, .Printf "ERROR: %v\n" [.err (some e)],
       .rowsClose, .dbClose]⟩ ∧
    stdout w (main w).trace = "ERROR: " ++ e.Error w ++ "\n" ∧
    successPrintf ∉ (main w).trace ∧
    (∀ ev ∈ (main w).trace, ev.isFatalf = false) ∧
    (main w).out = .ret () ∧
    (main w).exitStatus = 0 := by
  have hm : main w = ⟨.ret (), setupTrace w dsn ++ scanTrace rows.pending.length ++
      [.rowsNext, .rowsErr, .rowsErr, .Printf "ERROR: %v\n" [.err (some e)],
       .rowsClose, .dbClose]⟩ := by
    rw [main_rows w dsn cfg db rows hf hg hopen hq, rowLoop_all_one rows.pending hrows]
    simp [herr]
  have hs := stdout_scan w dsn _ hg rows.pending.length
    [.rowsNext, .rowsErr, .rowsErr, .Printf "ERROR: %v\n" [.err (some e)], .rowsClose, .dbClose]
  have hsteps : ∀ ev ∈ setupTrace w dsn ++ scanTrace rows.pending.length,
      ev.isOutput = false ∧ ev.isFatalf = false := by
    intro ev hev
    rcases List.mem_append.mp hev with h1 | h1
    · exact ⟨(setupTrace_steps w dsn _ hg ev h1).1, (setupTrace_steps w dsn _ hg ev h1).2.2⟩
    · rcases scanTrace_steps _ ev h1 with rfl | rfl <;> exact ⟨rfl, rfl⟩
  refine ⟨hm, ?_, ?_, ?_, by rw [hm], by rw [hm]; rfl⟩
  · rw [hm]
    exact hs.1.trans (by simp [stdout, sprintf_error_line])
  · rw [hm]
    intro hmem
    rcases List.mem_append.mp hmem with h1 | h1
    · exact not_success_of_quiet _ (fun ev hev => (hsteps ev hev).1) h1
    · simp [successPrintf] at h1
  · intro ev hev
    rw [hm] at hev
    rcases List.mem_append.mp hev with h1 | h1
    · exact (hsteps ev h1).2
    · simp only [List.mem_cons, List.mem_singleton, List.not_mem_nil, or_false] at h1
      rcases h1 with h1 | h1 | h1 | h1 | h1 | h1 <;> rw [h1] <;> rfl

/-- C8 on the run whose single row is 1 and whose stream then reports `stream fault`. -/
theorem main_reports_deferred_error_witness :
    stdout (withQuery (.ok ⟨[.ok 1], some (.errorString "stream fault")⟩))
      (main (withQuery (.ok ⟨[.ok 1], some (.errorString "stream fault")⟩))).trace =
        "ERROR: stream fault\n" ∧
    (main (withQuery (.ok ⟨[.ok 1], some (.errorString "stream fault")⟩))).exitStatus = 0 :=
  have h := main_reports_deferred_error
    (withQuery (.ok ⟨[.ok 1], some (.errorString "stream fault")⟩)) "usr@acct.snowflakecomputing.com"
    (some cfgRet) ⟨0⟩
    ⟨[.ok 1], some (.errorString "stream fault")⟩ (.errorString "stream fault")
    (by decide) (by decide) rfl rfl (by simp) rfl
  ⟨h.2.1, h.2.2.2.2.2⟩

/-- C9, as the code has it: in every run of `main` that prints the success line, `getDSN`
returned without error, the connection was opened, the query returned a result stream, every
row of it was decoded and confirmed equal to 1, and there was no deferred row-stream error;
the run then returns normally with exactly the success line on standard output. -/
theorem success_only_after_validation (w : World) (h : successPrintf ∈ (main w).trace) :
    ∃ dsn cfg db rows,
      (getDSN w).out = .ret (dsn, cfg, none) ∧
      w.sqlOpen "snowflake" dsn = .ok db ∧
      w.Query db "SELECT 1" = .ok rows ∧
      (∀ r ∈ rows.pending, r = .ok 1) ∧
      rows.err = none ∧
      (main w).out = .ret () ∧
      stdout w (main w).trace = successLine := by
  rcases flags_cases w with hf | ⟨c, hp, he⟩
  swap
  · rw [main_flag_exit w c hp he] at h
    simp [successPrintf] at h
  have hflag : successPrintf ∉ flagTrace w := fun hmem => by
    have := flagTrace_steps w _ hmem
    simp [successPrintf] at this
  have hget : successPrintf ∉ (getDSN w).trace := fun hmem => by
    rcases getDSN_trace_events w _ hmem with ⟨key, hk⟩ | ⟨c, hk⟩ | ⟨key, hk⟩ <;>
      simp [successPrintf] at hk
  rcases hout : (getDSN w).out with ⟨dsn, cfg, err⟩ | code
  swap
  · exfalso
    rw [(main_of_getDSN_exit w code hout).2.2 hf] at h
    rcases List.mem_append.mp h with h1 | h1
    · exact hflag h1
    · exact hget h1
  cases err with
  | some e =>
    exfalso
    rw [(main_of_getDSN_error w dsn cfg e hout).2.2 hf] at h
    simp only [List.mem_append, List.mem_singleton] at h
    rcases h with (h1 | h1) | h1
    · exact hflag h1
    · exact hget h1
    · simp [successPrintf] at h1
  | none =>
    have hsetup : successPrintf ∉ setupTrace w dsn :=
      not_success_of_quiet _ fun ev hev => (setupTrace_steps w dsn _ hout ev hev).1
    cases hopen : w.sqlOpen "snowflake" dsn with
    | error e =>
      exfalso
      rw [main_eq w hf, hout] at h
      simp only [hopen, ne_eq, not_true_eq_false, if_false, List.mem_append, List.mem_cons,
        List.mem_singleton, List.not_mem_nil, or_false] at h
      rcases h with (h1 | h1) | h1 | h1
      · exact hflag h1
      · exact hget h1
      · simp [successPrintf] at h1
      · simp [successPrintf] at h1
    | ok db =>
      cases hq : w.Query db "SELECT 1" with
      | error e =>
        exfalso
        rw [main_query_error w dsn cfg db e hf hout hopen hq] at h
        rcases List.mem_append.mp h with h1 | h1
        · exact hsetup h1
        · simp [successPrintf] at h1
      | ok rows =>
        have hm := main_rows w dsn cfg db rows hf hout hopen hq
        rcases hl : (rowLoop rows.pending).out with u | code
        · have hall := rowLoop_ret rows.pending u hl
          rw [hl] at hm
          cases herr : rows.err with
          | some e =>
            exfalso
            rw [hm] at h
            simp only [herr, ne_eq, not_false_eq_true, if_true, List.mem_append, List.mem_cons,
              List.mem_singleton, List.not_mem_nil, or_false, reduceCtorEq] at h
            rcases h with (h1 | h1) | h1
            · exact hsetup h1
            · exact rowLoop_no_Printf _ _ _ h1
            · simp [successPrintf] at h1
          | none =>
            refine ⟨dsn, cfg, db, rows, rfl, hopen, hq, hall, herr, ?_, ?_⟩
            · rw [hm]; simp [herr]
            · rw [hm, rowLoop_all_one rows.pending hall]
              simp only [herr, ne_eq, not_true_eq_false, if_false]
              have hs := stdout_scan w dsn _ hout rows.pending.length
                [.rowsNext, .rowsErr, successPrintf, .rowsClose, .dbClose]
              refine Eq.trans ?_ (hs.1.trans ?_)
              · simp
              · simp [stdout, successPrintf, sprintf_success]
        · exfalso
          rw [hl] at hm
          rw [hm] at h
          rcases List.mem_append.mp h with h1 | h1
          · exact hsetup h1
          · exact rowLoop_no_Printf _ _ _ h1

/-- C9 as amended, on the run `wOk`, which prints the success line. -/
theorem success_only_after_validation_witness :
    successPrintf ∈ (main wOk).trace ∧
    ∃ dsn cfg db rows,
      (getDSN wOk).out = .ret (dsn, cfg, none) ∧
      wOk.sqlOpen "snowflake" dsn = .ok db ∧
      wOk.Query db "SELECT 1" = .ok rows ∧
      (∀ r ∈ rows.pending, r = .ok 1) ∧
      rows.err = none ∧
      (main wOk).out = .ret () ∧
      stdout wOk (main wOk).trace = successLine :=
  ⟨by decide, success_only_after_validation wOk (by decide)⟩

/-- C9 fails as stated: the query of this run returns zero rows and no deferred error, no
row is decoded, and `main` prints the success line. -/
theorem success_printed_for_zero_rows :
    (withQuery (.ok ⟨[], none⟩)).Query ⟨0⟩ "SELECT 1" = .ok ⟨[], none⟩ ∧
    successPrintf ∈ (main (withQuery (.ok ⟨[], none⟩))).trace ∧
    Event.rowsScan ∉ (main (withQuery (.ok ⟨[], none⟩))).trace ∧
    stdout (withQuery (.ok ⟨[], none⟩)) (main (withQuery (.ok ⟨[], none⟩))).trace =
      "Congrats! You have successfully run SELECT 1 with Snowflake DB!\n" :=
  ⟨rfl, by decide, by decide, by decide⟩

/-- C10, as the code has it: when the query call fails with error `e`, the one diagnostic of
`main` is `failed to run a query. SELECT 1, err: ` followed by `e`: it includes the query
text and the underlying error. -/
theorem query_failure_diagnostic (w : World) (dsn : String) (cfg : Option Config) (db : DB)
    (e : GoError)
    (hf : w.flagsAccepted) (hg : (getDSN w).out = .ret (dsn, cfg, none))
    (hopen : w.sqlOpen "snowflake" dsn = .ok db) (hq : w.Query db "SELECT 1" = .error e) :
    diagnostics w (main w).trace = ["failed to run a query. SELECT 1, err: " ++ e.Error w] ∧
    includes ("failed to run a query. SELECT 1, err: " ++ e.Error w) "SELECT 1" ∧
    includes ("failed to run a query. SELECT 1, err: " ++ e.Error w) (e.Error w) := by
  refine ⟨?_, ?_, includes_right _ _⟩
  · rw [main_query_error w dsn cfg db e hf hg hopen hq]
    have hs := stdout_scan w dsn _ hg 0
      [.Fatalf "failed to run a query. %v, err: %v" [.str "SELECT 1", .err (some e)]]
    simp only [scanTrace, List.append_nil] at hs
    exact hs.2.trans (by simp [diagnostics, sprintf_query])
  · have h3 := includes_mid "failed to run a query. " "SELECT 1" (", err: " ++ e.Error w)
    have e3 : "failed to run a query. " ++ "SELECT 1" ++ (", err: " ++ e.Error w) =
        "failed to run a query. SELECT 1, err: " ++ e.Error w := by
      rw [← String.append_assoc]
      rfl
    rw [e3] at h3
    exact h3

/-- C10 as amended, on the run whose query fails with `network down`. -/
theorem query_failure_diagnostic_witness :
    diagnostics (withQuery (.error (.errorString "network down")))
      (main (withQuery (.error (.errorString "network down")))).trace =
        ["failed to run a query. SELECT 1, err: network down"] :=
  (query_failure_diagnostic (withQuery (.error (.errorString "network down"))) "usr@acct.snowflakecomputing.com"
    (some cfgRet) ⟨0⟩ (.errorString "network down") (by decide) (by decide) rfl rfl).1

/-- C10 fails as stated: the connection was opened from the string that `getDSN` returned,
`usr@acct.snowflakecomputing.com`, the query
fails, and the diagnostic of `main` holds the query text and the error but not that string,
which is not an operand of the call either. -/
theorem dsn_absent_from_query_diagnostic :
    (getDSN (withQuery (.error (.errorString "network down")))).out =
      .ret ("usr@acct.snowflakecomputing.com", some cfgRet, none) ∧
    Event.sqlOpen "snowflake" "usr@acct.snowflakecomputing.com" ∈
      (main (withQuery (.error (.errorString "network down")))).trace ∧
    (main (withQuery (.error (.errorString "network down")))).trace.getLast? =
      some (.Fatalf "failed to run a query. %v, err: %v"
        [.str "SELECT 1", .err (some (.errorString "network down"))]) ∧
    diagnostics (withQuery (.error (.errorString "network down")))
      (main (withQuery (.error (.errorString "network down")))).trace =
        ["failed to run a query. SELECT 1, err: network down"] ∧
    ¬ includes "failed to run a query. SELECT 1, err: network down"
      "usr@acct.snowflakecomputing.com" := by
  decide

end Selectkms1
